import Mathlib

/-!
Verification of the git-to-VSS synchronisation script (src/sync-git-vss.py).

The script is a single-threaded driver that replays git changes into a
Visual SourceSafe project by shelling out to `ss.exe` and `git.exe`.  We embed
it shallowly:

* the external tools are an oracle `env : Nat → Res` giving, for the k-th
  `subprocess.check_output`/`Popen` call of the run, either success (with the
  decoded, stripped stdout text) or a `CalledProcessError` carrying the
  decoded, stripped diagnostic text (`vss_get_error`, source line 197);
* every embedded function returns an `R α`: the list of external commands it
  issued (`tr`), the next oracle cursor (`k`), and a control-flow outcome
  (`Out`): a normal return, a completed `fatal_error` (which ends in
  `sys.exit(1)`), an uncaught Python `TypeError`/`NameError` (several
  `fatal_error` call sites are malformed, see `trunc_filename`,
  `vss_git_hash_set`, `vss_create_cd`, `vss_cd_create`, `amCore`), or a
  `CalledProcessError` propagating out of the function;
* machine-independent data (paths, diagnostics) are Lean `String`s; Python's
  `str.lower` is modelled by `strLower` (ASCII case-folding, which is
  what the repository's path names use).
-/

/-- Result of one external command, as seen by the script: either the command
exited 0 (with its decoded stdout) or `subprocess.check_output` raised a
`CalledProcessError` whose decoded, stripped output is the diagnostic. -/
inductive Res where
  | ok : String → Res
  | err : String → Res
deriving DecidableEq

/-- The output text of a `subprocess.Popen(...).communicate()` call: `Popen`
never raises on a nonzero exit, the script just reads whatever was printed. -/
def envOut : Res → String
  | .ok o => o
  | .err o => o

/-- Python exceptions raised by the malformed `fatal_error` call sites:
calling a three-parameter function with one argument raises `TypeError`
before the body runs; evaluating an unbound name raises `NameError`. -/
inductive PyErr where
  | typeError : PyErr
  | nameError : PyErr
deriving DecidableEq

deriving instance DecidableEq for Except

/-- Control-flow outcome of an embedded function. -/
inductive Out (α : Type) where
  | ret : α → Out α
  | fatal : String → String → String → Out α
  | exn : PyErr → Out α
  | cpe : String → Out α
deriving DecidableEq

/-- External commands the script issues (one constructor per command template
of source lines 116-147, plus the `os` effects the spec's claims mention). -/
inductive Cmd where
  | vssCd : String → Cmd
  | vssCreate : String → Cmd
  | vssAdd : String → Cmd
  | vssCp : String → Cmd
  | vssDir : Cmd
  | vssDel : String → Cmd
  | vssCkin : String → Cmd
  | vssCkout : String → Cmd
  | vssUndoCkout : String → Cmd
  | vssRename : String → String → Cmd
  | vssProj : Cmd
  | gitCkout : String → Cmd
  | gitCkin : String → Cmd
  | gitLog : String → Cmd
  | gitHash : Cmd
  | catFile : String → Cmd
  | chdir : String → Cmd
  | rmFile : String → Cmd
  | printCwd : Cmd
  | printMsg : String → Cmd
  | winEcho : String → String → Cmd
deriving DecidableEq

/-- Result of running an embedded piece of the script: commands issued, next
oracle cursor, and the control-flow outcome. -/
structure R (α : Type) where
  tr : List Cmd
  k : Nat
  out : Out α

/-- Sequencing: run `r`; on a normal return continue with `f`, otherwise the
failure (process exit, uncaught exception, or propagating
`CalledProcessError`) short-circuits, exactly as in the Python control flow. -/
def bindOut {α β : Type} (r : R α) (f : α → Nat → R β) : R β :=
  match r.out with
  | .ret a =>
    let r2 := f a r.k
    ⟨r.tr ++ r2.tr, r2.k, r2.out⟩
  | .fatal m sp fn => ⟨r.tr, r.k, .fatal m sp fn⟩
  | .exn e => ⟨r.tr, r.k, .exn e⟩
  | .cpe m => ⟨r.tr, r.k, .cpe m⟩

/-- Prepend already-issued commands to a result. -/
def withTr {α : Type} (pre : List Cmd) (r : R α) : R α :=
  ⟨pre ++ r.tr, r.k, r.out⟩

/-- Run-wide configuration: the globals of source lines 92-107 (`base_dir`,
`vss_proj`), the local working copy queried through `os.path.isfile` /
`os.path.isdir` (lines 371, 416), and the rename timestamp
`str(time.time())[:ts_size]` (lines 329, 359). -/
structure Cfg where
  base_dir : String
  vss_proj : String
  isfile : String → Bool
  isdir : String → Bool
  ts : String

/-- Source line 157: width of the timestamp suffix appended on safe-delete. -/
def ts_size : Nat := 10

/-- Source line 153: VSS maximum project-path length. -/
def pathlen_vss : Nat := 259

/-- Source line 158: name of the sync-marker leaf kept in the VSS root. -/
def gitcommit_file : String := ".gitcommit"

/-- Python `pat in s` (substring test), on the character lists of the
strings. -/
def containsList (pat : List Char) : List Char → Bool
  | [] => pat.isEmpty
  | c :: rest => pat.isPrefixOf (c :: rest) || containsList pat rest

/-- Python `pat in s` for strings. -/
def substrB (s pat : String) : Bool := containsList pat.data s.data

/-- Python `s.endswith(pat)`. -/
def endsWithB (s pat : String) : Bool := pat.data.isSuffixOf s.data

/-- Python `str.lower` on the ASCII path names the repository uses:
character-wise lower-casing.  (`String.toLower` itself is defined by
well-founded recursion and does not reduce in the kernel, so the embedding
uses this equivalent character-list form.) -/
def strLower (s : String) : String := String.mk (s.data.map Char.toLower)

/-- Helper for `splitChar`: accumulate the current piece (reversed). -/
def splitCharAux (sep : Char) : List Char → List Char → List String
  | [], acc => [String.mk acc.reverse]
  | c :: rest, acc =>
    if c = sep then String.mk acc.reverse :: splitCharAux sep rest []
    else splitCharAux sep rest (c :: acc)

/-- Python `s.split(sep)` for a one-character separator (and `str.splitlines`
for newline-separated output): equivalent to `String.splitOn`, in a
character-list form that reduces in the kernel. -/
def splitChar (sep : Char) (s : String) : List String := splitCharAux sep s.data []

/-- Python `os.path.dirname` for the git-relative, `/`-separated paths the
script manipulates: everything before the last `/`, or `""` when there is
none. -/
def dirname (s : String) : String :=
  String.mk (((s.data.reverse.dropWhile (fun c => c ≠ '/')).drop 1).reverse)

/-- Python `os.path.basename` for the same paths: everything after the last
`/`, or the whole string when there is none. -/
def basename (s : String) : String :=
  String.mk ((s.data.reverse.takeWhile (fun c => c ≠ '/')).reverse)

/-- Python `str.splitlines` on the decoded output of a subprocess (the
oracle supplies `\n`-separated output). -/
def splitlines (s : String) : List String := splitChar '\n' s

/-!
### The change list (source lines 381-400, `git_changes`)

The `git log --name-only` output lines are filtered for emptiness and then
deduplicated case-insensitively, keeping the **first** occurrence of each
lower-cased path (`unique`, lines 393-398: a path already in the `seen` set
is dropped).  `git log` without `--reverse` lists commits newest-first, so
the first occurrence of a path is its most recent change.
-/

/-- Lines 392-399: keep each line whose lower-casing has not been seen yet;
`seen` is the accumulated `set()` of lower-cased paths. -/
def dedupLowerAux : List String → List String → List String
  | [], _ => []
  | p :: ps, seen =>
    if strLower p ∈ seen then dedupLowerAux ps seen
    else p :: dedupLowerAux ps (strLower p :: seen)

/-- Lines 388-400: the pure list transformation of `git_changes` applied to
the decoded log lines: drop empty lines, then deduplicate case-insensitively
keeping first occurrences. -/
def git_changes_list (lines : List String) : List String :=
  dedupLowerAux (lines.filter (fun l => !(l == ""))) []

/-- Model of the external `git log` listing (source line 130, invoked at
line 386 with no `--reverse` flag): given the observation history of path
changes oldest-first, `git log` prints them newest-first, i.e. reversed. -/
def git_log_lines (hist : List String) : List String := hist.reverse

/-- The action `process_change` (lines 412-422) applies for one surviving
change record: line 417 tests `os.path.isfile(path)` on the checked-out
working tree — the path's final (net) status since the marker — and invokes
`vss_add_or_modify (dirname path) (basename path)` on presence, or
`vss_delete (dirname path) (basename path)` on absence.  The record carries
the path in its original case. -/
inductive SyncAction where
  | upsert : String → SyncAction
  | remove : String → SyncAction
deriving DecidableEq

/-- The path an action is applied to. -/
def SyncAction.path : SyncAction → String
  | .upsert p => p
  | .remove p => p

/-- Branch condition of `process_change` (line 417). -/
def change_action (isfile : String → Bool) (path : String) : SyncAction :=
  if isfile path then .upsert path else .remove path

/-- The actions `process_changes` (lines 424-430) applies, one per change
record, in list order. -/
def replay_actions (isfile : String → Bool) (changes : List String) : List SyncAction :=
  changes.map (change_action isfile)

/-!
### Path-length truncation (source lines 181-188, `trunc_filename`)

`index = len(filename) - (len(subproj+"/"+filename) + ts_size - pathlen_vss)`
is computed over Python's unbounded signed integers.  When `index < 0` the
code calls `fatal_error("Cannot rename " + path + " ...")` with a single
argument although `fatal_error` takes three — Python raises `TypeError`
before any of `fatal_error`'s body runs. -/
def trunc_filename (subproj filename : String) : Except PyErr String :=
  let path := subproj ++ "/" ++ filename
  let trunc : Int := (path.length : Int) + (ts_size : Int) - (pathlen_vss : Int)
  let index : Int := (filename.length : Int) - trunc
  if index < 0 then .error .typeError
  else .ok (filename.take index.toNat)

/-!
### Fatal-error escalation (source lines 165-175, `fatal_error`)

When invoked with its three arguments the routine prints the current VSS
project, recursively undoes any checkout held on the root project
(`ss undocheckout "<vss_proj>" -R`), returns to the base directory, removes
the local `.gitcommit` copy, prints the failing path with the raw diagnostic,
and exits with status 1. -/
def fatalCmds (cfg : Cfg) (msg subproj filename : String) : List Cmd :=
  [.vssProj, .printCwd, .vssUndoCkout cfg.vss_proj, .chdir cfg.base_dir,
   .rmFile gitcommit_file,
   .printMsg ("Error on " ++ subproj ++ "/" ++ filename ++ ": " ++ msg)]

/-- A correctly-arity call of `fatal_error msg subproj filename`: issue the
cleanup commands and terminate the run. -/
def fatal_error {α : Type} (cfg : Cfg) (msg subproj filename : String) (k : Nat) : R α :=
  ⟨fatalCmds cfg msg subproj filename, k, .fatal msg subproj filename⟩

/-- Process exit status of the whole script as a function of the final
outcome: a completed `fatal_error` runs `sys.exit(1)`; an uncaught Python
exception (`TypeError`, `NameError`, `CalledProcessError`, `IndexError`)
terminates the interpreter with status 1; otherwise the script falls off the
end with status 0. -/
def exit_code : Out Unit → Nat
  | .ret _ => 0
  | .fatal _ _ _ => 1
  | .exn _ => 1
  | .cpe _ => 1

/-!
### Command-line precondition (source lines 61-101)

`sys.exit()` with no argument exits with status 0.  The argument check only
requires `len(sys.argv) >= 6`, yet line 98 reads `sys.argv[6]`
unconditionally and line 101 reads `sys.argv[7]` when `len(sys.argv) == 8`.
-/

/-- Outcome of the precondition block: help text plus `sys.exit()` (status
0), an uncaught `IndexError` from `sys.argv[6]`, or the parsed arguments. -/
inductive CliOutcome where
  | exitHelp : CliOutcome
  | indexError : CliOutcome
  | run : String → String → String → String → String → String → Option String → CliOutcome
deriving DecidableEq

/-- Lines 85-101: the argument check and the unconditional reads.  Indices
1-5 are guarded by the length check; index 6 is not (hence the `IndexError`
case); index 7 is read only under `len(sys.argv) == 8`. -/
def cli_parse (argv : List String) : CliOutcome :=
  if argv.length < 6 then .exitHelp
  else
    match argv.get? 6 with
    | none => .indexError
    | some vss_passwd =>
      .run (argv.getD 1 "") (argv.getD 2 "") (argv.getD 3 "") (argv.getD 4 "")
        (argv.getD 5 "") vss_passwd
        (if argv.length = 8 then some (argv.getD 7 "") else none)

/-- Exit status of the precondition block, when it terminates the process. -/
def cli_exit_code : CliOutcome → Option Nat
  | .exitHelp => some 0
  | .indexError => some 1
  | .run _ _ _ _ _ _ _ => none

/-!
### VSS helpers (source lines 199-373)

Each embedded function issues commands and consumes oracle responses in the
order its `subprocess.check_output` / `subprocess.call` / `Popen` calls occur
in the Python control flow.  `subprocess.call` never raises, so it issues a
command without consulting the oracle.
-/

/-- Lines 199-214, `vss_cd_root`: change to the root project (creating it on
"does not exist") and return to the base directory; any other failure is a
(correctly invoked) `fatal_error err vss_proj ""`. -/
def vss_cd_root (cfg : Cfg) (env : Nat → Res) (k : Nat) : R Unit :=
  match env k with
  | .ok _ => ⟨[.vssCd cfg.vss_proj, .chdir cfg.base_dir], k + 1, .ret ()⟩
  | .err e1 =>
    if substrB e1 "does not exist" then
      match env (k + 1) with
      | .err e2 =>
        withTr [.vssCd cfg.vss_proj, .vssCreate cfg.vss_proj]
          (fatal_error cfg e2 cfg.vss_proj "" (k + 2))
      | .ok _ =>
        match env (k + 2) with
        | .ok _ =>
          ⟨[.vssCd cfg.vss_proj, .vssCreate cfg.vss_proj, .vssCd cfg.vss_proj,
            .chdir cfg.base_dir], k + 3, .ret ()⟩
        | .err e3 =>
          withTr [.vssCd cfg.vss_proj, .vssCreate cfg.vss_proj, .vssCd cfg.vss_proj]
            (fatal_error cfg e3 cfg.vss_proj "" (k + 3))
    else withTr [.vssCd cfg.vss_proj] (fatal_error cfg e1 cfg.vss_proj "" (k + 1))

/-- Lines 261-268, `vss_rename_cd`: rename the directory to itself (a case
fix-up), tolerating "that name already exists", then `ss cd` into it; a
non-tolerated rename failure re-raises the `CalledProcessError`, and a cd
failure lets its `CalledProcessError` propagate to the caller. -/
def vss_rename_cd (cfg : Cfg) (env : Nat → Res) (sp : String) (k : Nat) : R Unit :=
  let cdPart : Nat → List Cmd → R Unit := fun k' pre =>
    match env k' with
    | .ok _ => ⟨pre ++ [.vssCd sp], k' + 1, .ret ()⟩
    | .err m2 => ⟨pre ++ [.vssCd sp], k' + 1, .cpe m2⟩
  match env k with
  | .ok _ => cdPart (k + 1) [.vssRename sp sp]
  | .err m =>
    if substrB m "that name already exists" then cdPart (k + 1) [.vssRename sp sp]
    else ⟨[.vssRename sp sp], k + 1, .cpe m⟩

/-- Lines 241-249, `vss_create_cd`: create the project (tolerating "already
exists"), then `ss cd` into it (via `subprocess.call`, which never raises)
and `os.chdir`.  On a non-tolerated create failure the code calls
`fatal_error(err, subproj, filename)` (line 247) but neither `subproj` nor
`filename` is bound in this scope: Python raises `NameError` while
evaluating the arguments, before `fatal_error` is entered. -/
def vss_create_cd (cfg : Cfg) (env : Nat → Res) (path : String) (k : Nat) : R Unit :=
  match env k with
  | .ok _ => ⟨[.vssCreate path, .vssCd path, .chdir path], k + 1, .ret ()⟩
  | .err m =>
    if endsWithB m "already exists" then
      ⟨[.vssCreate path, .vssCd path, .chdir path], k + 1, .ret ()⟩
    else ⟨[.vssCreate path], k + 1, .exn .nameError⟩

/-- The `for dir in dirs: vss_create_cd(dir)` loop of line 257-258. -/
def createCdLoop (cfg : Cfg) (env : Nat → Res) : List String → Nat → R Unit
  | [], k => ⟨[], k, .ret ()⟩
  | d :: rest, k =>
    bindOut (vss_create_cd cfg env d k) (fun _ k' => createCdLoop cfg env rest k')

/-- Lines 250-260, `vss_create_subproj`: prepend the basename to the pending
directory list, `ss cd` into the dirname when nonempty, then create each
pending directory in order; if the cd raises, retry one level up with the
grown list.  (`vss_create_cd` cannot raise `CalledProcessError` — its only
`check_output` is wrapped — so the `except` clause of line 259 only fires
for the cd of line 255.) -/
def vss_create_subproj (cfg : Cfg) (env : Nat → Res) (path : String)
    (dirs : List String) (k : Nat) : R Unit :=
  if h : dirname path = "" then createCdLoop cfg env (basename path :: dirs) k
  else
    match env k with
    | .ok _ =>
      withTr [.vssCd (dirname path), .chdir (dirname path)]
        (createCdLoop cfg env (basename path :: dirs) (k + 1))
    | .err _ =>
      withTr [.vssCd (dirname path)]
        (vss_create_subproj cfg env (dirname path) (basename path :: dirs) (k + 1))
termination_by path.length
decreasing_by
  have hp : path ≠ "" := by
    intro he
    subst he
    exact h (by decide)
  have h1 : (path.data.reverse.dropWhile (fun c => c ≠ '/')).length ≤ path.data.length := by
    calc (path.data.reverse.dropWhile (fun c => c ≠ '/')).length
        ≤ path.data.reverse.length := (List.dropWhile_suffix _).length_le
      _ = path.data.length := List.length_reverse _
  have h2 : 1 ≤ path.data.length := by
    rcases path with ⟨l⟩
    cases l with
    | nil => exact absurd (by decide : String.mk [] = "") hp
    | cons c cs => simp
  simp only [dirname, String.length, List.length_reverse, List.length_drop]
  omega

/-- The `for dir in subproj.split("/"): vss_rename_cd(dir)` loop of lines
273-274, followed by the `os.chdir(subproj)` of line 275 when it completes. -/
def renameCdLoop (cfg : Cfg) (env : Nat → Res) : List String → Nat → R Unit
  | [], k => ⟨[], k, .ret ()⟩
  | d :: rest, k =>
    bindOut (vss_rename_cd cfg env d k) (fun _ k' => renameCdLoop cfg env rest k')

/-- Lines 269-282, `vss_cd_create`: walk into the subproject component by
component; if some step raises with a diagnostic ending in "not exist", go
back to the root and create the whole chain; any other raised diagnostic
reaches `fatal_error(err, subproj, filename)` (line 282) where `filename` is
unbound — Python raises `NameError` evaluating the arguments. -/
def vss_cd_create (cfg : Cfg) (env : Nat → Res) (subproj : String) (k : Nat) : R Unit :=
  if subproj = "" then ⟨[], k, .ret ()⟩
  else
    let L := bindOut (renameCdLoop cfg env (splitChar '/' subproj) k)
      (fun _ k' => ⟨[.chdir subproj], k', .ret ()⟩)
    match L.out with
    | .cpe m =>
      if endsWithB m "not exist" then
        withTr L.tr (bindOut (vss_cd_root cfg env L.k)
          (fun _ k2 => vss_create_subproj cfg env subproj [] k2))
      else ⟨L.tr, L.k, .exn .nameError⟩
    | o => ⟨L.tr, L.k, o⟩

/-- Lines 286-315 of `vss_add_or_modify`, after the containing path has been
entered: try `ss add`; on "already exists" fall through to modify (checkout,
then checkin at line 304); a checkout failure containing "You currently
have" checks in directly (line 297) and then control still reaches the
checkin of line 304; any other checkout failure, or a checkin failure, is a
(correctly invoked) `fatal_error err subproj filename`.  After a completed
modify, the rename fix-up of lines 310-315 runs; its non-tolerated failure
branch calls `fatal_error(err)` with a single argument — Python raises
`TypeError` before `fatal_error`'s body runs. -/
def amCore (cfg : Cfg) (env : Nat → Res) (subproj filename : String) (k : Nat) : R Unit :=
  let renamePhase : Nat → List Cmd → R Unit := fun k' pre =>
    match env k' with
    | .ok _ => ⟨pre ++ [.vssRename filename filename], k' + 1, .ret ()⟩
    | .err m =>
      if substrB m "that name already exists" then
        ⟨pre ++ [.vssRename filename filename], k' + 1, .ret ()⟩
      else ⟨pre ++ [.vssRename filename filename], k' + 1, .exn .typeError⟩
  let ckinPhase : Nat → List Cmd → R Unit := fun k' pre =>
    match env k' with
    | .ok _ => renamePhase (k' + 1) (pre ++ [.vssCkin filename])
    | .err m =>
      withTr (pre ++ [.vssCkin filename]) (fatal_error cfg m subproj filename (k' + 1))
  match env k with
  | .ok _ => ⟨[.vssAdd filename], k + 1, .ret ()⟩
  | .err m =>
    if endsWithB m "already exists" then
      match env (k + 1) with
      | .ok _ => ckinPhase (k + 2) [.vssAdd filename, .vssCkout filename]
      | .err m2 =>
        if substrB m2 "You currently have" then
          match env (k + 2) with
          | .ok _ => ckinPhase (k + 3) [.vssAdd filename, .vssCkout filename, .vssCkin filename]
          | .err m3 =>
            withTr [.vssAdd filename, .vssCkout filename, .vssCkin filename]
              (fatal_error cfg m3 subproj filename (k + 3))
        else
          withTr [.vssAdd filename, .vssCkout filename]
            (fatal_error cfg m2 subproj filename (k + 2))
    else withTr [.vssAdd filename] (fatal_error cfg m subproj filename (k + 1))

/-- Lines 283-315, `vss_add_or_modify`: enter (creating if needed) the
containing subproject, then run the add-or-modify sequence. -/
def vss_add_or_modify (cfg : Cfg) (env : Nat → Res) (subproj filename : String)
    (k : Nat) : R Unit :=
  bindOut (vss_cd_create cfg env subproj k)
    (fun _ k1 => amCore cfg env subproj filename k1)

/-- One level of `vss_delete_empty_subproj` (source lines 319-343), for a
nonempty `subproj`: list the current project (`ss dir`, a `Popen`); when it
reports "No items found", rename the subproject to its truncated name plus
timestamp and delete the renamed entry (any failure of either is a correctly
invoked `fatal_error err subproj filename`), `ss cp` to the parent (failure
is `fatal_error err subproj ""`), and continue with the parent via
`recurse`.  The recursion itself lives in `vss_delete_empty_subproj`. -/
def vss_delete_empty_step (cfg : Cfg) (env : Nat → Res) (subproj : String)
    (k : Nat) (recurse : Nat → R Unit) : R Unit :=
  if substrB (envOut (env k)) "No items found" then
    let filename := basename subproj
    match trunc_filename (dirname subproj) filename with
    | .error e => ⟨[.vssDir], k + 1, .exn e⟩
    | .ok t =>
      let new_filename := t ++ cfg.ts
      let old_path := cfg.vss_proj ++ "/" ++ dirname subproj ++ "/" ++ filename
      let renamed_path := cfg.vss_proj ++ "/" ++ dirname subproj ++ "/" ++ new_filename
      match env (k + 1) with
      | .err m =>
        withTr [.vssDir, .vssRename old_path renamed_path]
          (fatal_error cfg m subproj filename (k + 2))
      | .ok _ =>
        match env (k + 2) with
        | .err m =>
          withTr [.vssDir, .vssRename old_path renamed_path, .vssDel renamed_path]
            (fatal_error cfg m subproj filename (k + 3))
        | .ok _ =>
          match env (k + 3) with
          | .err m =>
            withTr [.vssDir, .vssRename old_path renamed_path, .vssDel renamed_path,
                    .vssCp (cfg.vss_proj ++ "/" ++ dirname subproj)]
              (fatal_error cfg m subproj "" (k + 4))
          | .ok _ =>
            withTr [.vssDir, .vssRename old_path renamed_path, .vssDel renamed_path,
                    .vssCp (cfg.vss_proj ++ "/" ++ dirname subproj)]
              (recurse (k + 4))
  else ⟨[.vssDir], k + 1, .ret ()⟩

/-- Lines 316-343, `vss_delete_empty_subproj`: stop at the root (`""`),
otherwise run one `vss_delete_empty_step` and recurse upward on the parent
(`os.path.dirname`, line 326/343). -/
def vss_delete_empty_subproj (cfg : Cfg) (env : Nat → Res) (subproj : String)
    (k : Nat) : R Unit :=
  if h : subproj = "" then ⟨[], k, .ret ()⟩
  else
    vss_delete_empty_step cfg env subproj k
      (fun k2 => vss_delete_empty_subproj cfg env (dirname subproj) k2)
termination_by subproj.length
decreasing_by
  have h1 : (subproj.data.reverse.dropWhile (fun c => c ≠ '/')).length ≤ subproj.data.length := by
    calc (subproj.data.reverse.dropWhile (fun c => c ≠ '/')).length
        ≤ subproj.data.reverse.length := (List.dropWhile_suffix _).length_le
      _ = subproj.data.length := List.length_reverse _
  have h2 : 1 ≤ subproj.data.length := by
    rcases subproj with ⟨l⟩
    cases l with
    | nil => exact absurd (by decide : String.mk [] = "") h
    | cons c cs => simp
  simp only [dirname, String.length, List.length_reverse, List.length_drop]
  omega

/-- Lines 344-373, `vss_delete`: `ss cd` into the subproject (any failure is
"nothing to do"); checkout the file (failure with "not an existing" or "has
been deleted" is "nothing to do", failure without "You currently have" is a
correctly invoked fatal error); rename to the truncated name plus timestamp
(a rename failure is fatal; a `trunc_filename` underflow propagates its
`TypeError`); delete the renamed file (failure without "has been deleted" is
fatal); finally, when the directory no longer exists in the git working copy
(line 371), cascade into `vss_delete_empty_subproj`. -/
def vss_delete (cfg : Cfg) (env : Nat → Res) (subproj filename : String)
    (k : Nat) : R Unit :=
  match env k with
  | .err _ => ⟨[.vssCd subproj], k + 1, .ret ()⟩
  | .ok _ =>
    let post : Nat → List Cmd → R Unit := fun k' pre =>
      if cfg.isdir subproj then ⟨pre, k', .ret ()⟩
      else withTr pre (vss_delete_empty_subproj cfg env subproj k')
    let delPhase : Nat → List Cmd → R Unit := fun k' pre =>
      match trunc_filename subproj filename with
      | .error e => ⟨pre, k', .exn e⟩
      | .ok t =>
        let new_filename := t ++ cfg.ts
        match env k' with
        | .err m =>
          withTr (pre ++ [.vssRename filename new_filename])
            (fatal_error cfg m subproj filename (k' + 1))
        | .ok _ =>
          match env (k' + 1) with
          | .err m =>
            if substrB m "has been deleted" then
              post (k' + 2) (pre ++ [.vssRename filename new_filename, .vssDel new_filename])
            else
              withTr (pre ++ [.vssRename filename new_filename, .vssDel new_filename])
                (fatal_error cfg m subproj filename (k' + 2))
          | .ok _ =>
            post (k' + 2) (pre ++ [.vssRename filename new_filename, .vssDel new_filename])
    match env (k + 1) with
    | .ok _ => delPhase (k + 2) [.vssCd subproj, .vssCkout filename]
    | .err m =>
      if substrB m "not an existing" || substrB m "has been deleted" then
        ⟨[.vssCd subproj, .vssCkout filename], k + 2, .ret ()⟩
      else if !(substrB m "You currently have") then
        withTr [.vssCd subproj, .vssCkout filename]
          (fatal_error cfg m subproj filename (k + 2))
      else delPhase (k + 2) [.vssCd subproj, .vssCkout filename]

/-!
### The driver (source lines 215-240, 377-400, 412-430, 444-457)
-/

/-- Lines 229-240, `vss_git_hash_get`: checkout the marker leaf; "not an
existing filename" means no marker (replay everything); any other failure
not containing "You currently have" is a correctly invoked
`fatal_error err "" ""`; otherwise `cat` the local copy (a `Popen`) and
return its output. -/
def vss_git_hash_get (cfg : Cfg) (env : Nat → Res) (k : Nat) : R (Option String) :=
  match env k with
  | .ok _ =>
    ⟨[.gitCkout gitcommit_file, .catFile gitcommit_file], k + 2,
     .ret (some (envOut (env (k + 1))))⟩
  | .err m =>
    if substrB m "not an existing filename" then
      ⟨[.gitCkout gitcommit_file], k + 1, .ret none⟩
    else if !(substrB m "You currently have") then
      withTr [.gitCkout gitcommit_file] (fatal_error cfg m "" "" (k + 1))
    else
      ⟨[.gitCkout gitcommit_file, .catFile gitcommit_file], k + 2,
       .ret (some (envOut (env (k + 1))))⟩

/-- Lines 215-228, `vss_git_hash_set`: write the commit hash into the local
marker file (`echo`, a `subprocess.call`), then check it in; on "not an
existing" add it instead.  Both error escalation sites are malformed: line
226 calls `fatal_error(e)` with one argument (`TypeError`), line 228 calls
`fatal_error(err, subproj, filename)` with two unbound names (`NameError`). -/
def vss_git_hash_set (cfg : Cfg) (env : Nat → Res) (commit : String) (k : Nat) : R Unit :=
  match env k with
  | .ok _ => ⟨[.winEcho commit gitcommit_file, .gitCkin gitcommit_file], k + 1, .ret ()⟩
  | .err m =>
    if substrB m "not an existing" then
      match env (k + 1) with
      | .ok _ =>
        ⟨[.winEcho commit gitcommit_file, .gitCkin gitcommit_file, .vssAdd gitcommit_file],
         k + 2, .ret ()⟩
      | .err _ =>
        ⟨[.winEcho commit gitcommit_file, .gitCkin gitcommit_file, .vssAdd gitcommit_file],
         k + 2, .exn .typeError⟩
    else ⟨[.winEcho commit gitcommit_file, .gitCkin gitcommit_file], k + 1, .exn .nameError⟩

/-- Lines 377-380, `git_hash`: a `Popen` of `git log --format=format:%H -1`,
returning its output. -/
def git_hash_run (env : Nat → Res) (k : Nat) : R String :=
  ⟨[.gitHash], k + 1, .ret (envOut (env k))⟩

/-- Lines 381-400, `git_changes`: the commit range is `""` when there is no
marker and `"HEAD..." ++ since` otherwise; the listing is a `Popen` whose
decoded output is split into lines and passed through `git_changes_list`. -/
def git_changes_run (env : Nat → Res) (since : Option String) (k : Nat) : R (List String) :=
  let commit_range := match since with
    | none => ""
    | some s => "HEAD..." ++ s
  ⟨[.gitLog commit_range], k + 1,
   .ret (git_changes_list (splitlines (envOut (env k))))⟩

/-- Lines 412-423, `process_change`: re-anchor at the root, then apply the
add-or-modify or delete operation according to the file's presence in the
git working copy (the assignment of line 423 is dead code and is omitted). -/
def process_change (cfg : Cfg) (env : Nat → Res) (path : String) (i t : Nat)
    (k : Nat) : R Unit :=
  bindOut (vss_cd_root cfg env k) (fun _ k1 =>
    if cfg.isfile path then
      withTr [.printMsg (toString i ++ "/" ++ toString t ++ " Adding/modifying " ++ path)]
        (vss_add_or_modify cfg env (dirname path) (basename path) k1)
    else
      withTr [.printMsg (toString i ++ "/" ++ toString t ++ " Deleting " ++ path)]
        (vss_delete cfg env (dirname path) (basename path) k1))

/-- The loop of lines 427-429. -/
def process_changes_go (cfg : Cfg) (env : Nat → Res) (i t : Nat) :
    List String → Nat → R Unit
  | [], k => ⟨[], k, .ret ()⟩
  | c :: rest, k =>
    bindOut (process_change cfg env c i t k)
      (fun _ k' => process_changes_go cfg env (i + 1) t rest k')

/-- Lines 424-430, `process_changes`. -/
def process_changes (cfg : Cfg) (env : Nat → Res) (changes : List String)
    (k : Nat) : R Unit :=
  bindOut (process_changes_go cfg env 1 changes.length changes k)
    (fun _ k' => ⟨[.printMsg "All changes processed"], k', .ret ()⟩)

/-- Lines 444-457 of the main block: re-anchor at the root, read the sync
marker once, read the current hash, compute the change list bounded by the
marker, process every change, re-anchor, and finally record the new hash in
the marker. -/
def main_sync (cfg : Cfg) (env : Nat → Res) : R Unit :=
  bindOut (vss_cd_root cfg env 0) (fun _ k1 =>
  bindOut (vss_git_hash_get cfg env k1) (fun sync_commit k2 =>
  bindOut (git_hash_run env k2) (fun hash k3 =>
  withTr [.printMsg (match sync_commit with
    | none => "Replaying from first git commit until " ++ hash.take 7 ++ " (.gitcommit not found)"
    | some sc => "Replaying from " ++ sc.take 7 ++ " until " ++ hash.take 7)]
  (bindOut (git_changes_run env sync_commit k3) (fun changes k4 =>
  bindOut (process_changes cfg env changes k4) (fun _ k5 =>
  bindOut (vss_cd_root cfg env k5) (fun _ k6 =>
  bindOut (git_hash_run env k6) (fun hash2 k7 =>
  vss_git_hash_set cfg env hash2 k7))))))))

/-- A command that reads the sync marker from the target store: the
`ss checkout ".gitcommit"` of `vss_git_hash_get` (template of line 146). -/
def isMarkerRead : Cmd → Bool
  | .gitCkout f => f == gitcommit_file
  | _ => false

/-- A command belonging to the marker write-back of `vss_git_hash_set`: the
`echo` into the local marker file and the `ss checkin ".gitcommit"`
(templates of lines 119 and 147). -/
def isMarkerWrite : Cmd → Bool
  | .winEcho _ _ => true
  | .gitCkin _ => true
  | _ => false

/-!
### Concrete instances used by the evaluation theorems
-/

/-- A container path of 250 characters (the spec's own example length). -/
def c250 : String := String.mk (List.replicate 250 'c')

/-- A well-behaved container path of 240 characters. -/
def d240 : String := String.mk (List.replicate 240 'd')

/-- A container path of 249 characters. -/
def a249 : String := String.mk (List.replicate 249 'a')

/-- A concrete run configuration. -/
def cfgW : Cfg :=
  ⟨"C:/work/base", "$/Project", fun _ => true, fun _ => true, "1700000000"⟩

/-- Oracle: marker checkin reports "not an existing", the subsequent add
fails. -/
def envSetA : Nat → Res := fun k =>
  if k = 0 then .err "File .gitcommit is not an existing filename" else .err "disk failure"

/-- Oracle: every command fails with an unclassified diagnostic. -/
def envSetB : Nat → Res := fun _ => .err "unexpected diagnostic"

/-- Oracle: every command fails with "kaboom" (matches no known pattern). -/
def envKaboom : Nat → Res := fun _ => .err "kaboom"

/-- Oracle: add reports "already exists", checkout and checkin succeed, the
rename fix-up fails with an unclassified diagnostic. -/
def envAm : Nat → Res := fun k =>
  if k = 0 then .err "already exists"
  else if k = 3 then .err "bad rename"
  else .ok ""

/-- Oracle: every command succeeds with empty output. -/
def envOk : Nat → Res := fun _ => .ok ""

/-- Oracle driving a two-level cascade: the listings of `a/b/c` and `a/b`
report "No items found", their renames, deletes and cp succeed, and the
listing of `a` reports remaining content. -/
def envC7 : Nat → Res := fun k =>
  if k = 0 then .ok "No items found"
  else if k = 4 then .ok "No items found"
  else if k = 8 then .ok "2 item(s)"
  else .ok ""

/-- Oracle: the root cd succeeds, the marker checkout reports the marker
leaf is "not an existing filename", and everything else succeeds. -/
def envAbsent : Nat → Res := fun k =>
  if k = 1 then .err "File .gitcommit is not an existing filename" else .ok ""

/-!
### Helper lemmas on the deduplicated change list
-/

theorem dedupLowerAux_sub : ∀ (l seen : List String) (p : String),
    p ∈ dedupLowerAux l seen → p ∈ l := by
  intro l
  induction l with
  | nil => intro seen p hp; simp [dedupLowerAux] at hp
  | cons a as ih =>
    intro seen p hp
    simp only [dedupLowerAux] at hp
    split at hp
    · exact List.mem_cons_of_mem _ (ih _ _ hp)
    · rw [List.mem_cons] at hp
      rcases hp with rfl | hp
      · exact List.mem_cons_self _ _
      · exact List.mem_cons_of_mem _ (ih _ _ hp)

theorem dedupLowerAux_head_filter : ∀ (l seen : List String) (p : String),
    p ∈ dedupLowerAux l seen →
    strLower p ∉ seen
      ∧ (l.filter (fun q => strLower q == strLower p)).head? = some p := by
  intro l
  induction l with
  | nil => intro seen p hp; simp [dedupLowerAux] at hp
  | cons a as ih =>
    intro seen p hp
    simp only [dedupLowerAux] at hp
    split at hp
    · rename_i ha
      obtain ⟨h1, h2⟩ := ih _ _ hp
      refine ⟨h1, ?_⟩
      have hne : (strLower a == strLower p) = false := by
        apply beq_false_of_ne
        intro he
        exact h1 (he ▸ ha)
      simp only [List.filter_cons, hne, if_neg Bool.false_ne_true]
      exact h2
    · rename_i ha
      rw [List.mem_cons] at hp
      rcases hp with rfl | hp
      · refine ⟨ha, ?_⟩
        simp [List.filter_cons]
      · obtain ⟨h1, h2⟩ := ih _ _ hp
        have hps : strLower p ∉ seen := fun hs => h1 (List.mem_cons_of_mem _ hs)
        have hpa : strLower p ≠ strLower a := fun he => h1 (he ▸ List.mem_cons_self _ _)
        refine ⟨hps, ?_⟩
        have hne : (strLower a == strLower p) = false :=
          beq_false_of_ne (fun he => hpa he.symm)
        simp only [List.filter_cons, hne, if_neg Bool.false_ne_true]
        exact h2

theorem dedupLowerAux_nodup : ∀ (l seen : List String),
    ((dedupLowerAux l seen).map strLower).Nodup := by
  intro l
  induction l with
  | nil => intro seen; simp [dedupLowerAux]
  | cons a as ih =>
    intro seen
    simp only [dedupLowerAux]
    split
    · exact ih _
    · simp only [List.map_cons, List.nodup_cons]
      refine ⟨?_, ih _⟩
      intro hmem
      rw [List.mem_map] at hmem
      obtain ⟨q, hq, hql⟩ := hmem
      have h1 := (dedupLowerAux_head_filter as _ q hq).1
      exact h1 (hql ▸ List.mem_cons_self _ _)

theorem nodup_filter_eq_single : ∀ (out : List String),
    ((out.map strLower).Nodup) → ∀ p ∈ out,
    out.filter (fun q => strLower q == strLower p) = [p] := by
  intro out
  induction out with
  | nil => intro _ p hp; simp at hp
  | cons a rest ih =>
    intro hnd p hp
    simp only [List.map_cons, List.nodup_cons] at hnd
    obtain ⟨hna, hnd'⟩ := hnd
    rw [List.mem_cons] at hp
    rcases hp with rfl | hp
    · have hrest : rest.filter (fun q => strLower q == strLower p) = [] := by
        rw [List.filter_eq_nil_iff]
        intro q hq hbe
        exact hna (List.mem_map.mpr ⟨q, hq, eq_of_beq hbe⟩)
      simp [List.filter_cons, hrest]
    · have hne : (strLower a == strLower p) = false := by
        apply beq_false_of_ne
        intro he
        exact hna (List.mem_map.mpr ⟨p, hp, he.symm⟩)
      simp only [List.filter_cons, hne, if_neg Bool.false_ne_true]
      exact ih hnd' p hp

theorem change_action_path (isfile : String → Bool) (q : String) :
    (change_action isfile q).path = q := by
  unfold change_action
  split <;> rfl

theorem head_filter_reverse (l : List String) (f : String → Bool) :
    (l.reverse.filter f).head? = (l.filter f).getLast? := by
  rw [List.filter_reverse, List.head?_reverse]

theorem bindOut_ret {α β : Type} (r : R α) (f : α → Nat → R β) (a : α)
    (h : r.out = .ret a) : bindOut r f = withTr r.tr (f a r.k) := by
  unfold bindOut withTr
  rw [h]

/-!
### Claim theorems
-/

/-- C1.  For every change list produced for one replay batch, at most one
change record survives per path under case-insensitive comparison (the
lower-casings of the surviving records are pairwise distinct); the surviving
record is one of the observed lines with its original case; replay applies
exactly one action for that path (the filtered action list is a singleton),
on the original-case path, and the action applied is Upserted exactly when
the path is present in the source working tree — its final (net) status
since the marker, which is what line 417 of the source consults. -/
theorem git_changes_dedup_single_action (lines : List String) (isfile : String → Bool)
    (p : String) (hp : p ∈ git_changes_list lines) :
    ((git_changes_list lines).map strLower).Nodup
    ∧ p ∈ lines
    ∧ (replay_actions isfile (git_changes_list lines)).filter
        (fun a => strLower a.path == strLower p) = [change_action isfile p]
    ∧ (change_action isfile p).path = p
    ∧ (change_action isfile p = SyncAction.upsert p ↔ isfile p = true) := by
  have hnd : ((git_changes_list lines).map strLower).Nodup :=
    dedupLowerAux_nodup _ _
  refine ⟨hnd, ?_, ?_, change_action_path _ _, ?_⟩
  · have h1 := dedupLowerAux_sub _ _ _ hp
    exact (List.mem_filter.mp h1).1
  · have hfm : (replay_actions isfile (git_changes_list lines)).filter
        (fun a => strLower a.path == strLower p)
        = ((git_changes_list lines).filter
            ((fun a : SyncAction => strLower a.path == strLower p) ∘ change_action isfile)).map
              (change_action isfile) := by
      unfold replay_actions
      exact List.filter_map _ _
    rw [hfm]
    have hcongr : (git_changes_list lines).filter
        ((fun a : SyncAction => strLower a.path == strLower p) ∘ change_action isfile)
        = (git_changes_list lines).filter (fun q => strLower q == strLower p) := by
      apply List.filter_congr
      intro q _
      simp [Function.comp, change_action_path]
    rw [hcongr, nodup_filter_eq_single _ hnd p hp]
    rfl
  · unfold change_action
    by_cases hf : isfile p
    · simp [hf]
    · simp [hf]

/-- Witness for C1 at a concrete batch: the three observations of the spec's
deduplication example collapse to a single applied upsert on `a/x.txt`. -/
theorem git_changes_dedup_single_action_witness :
    (replay_actions (fun _ => true)
        (git_changes_list ["a/x.txt", "A/X.txt", "", "a/x.txt"])).filter
      (fun a => strLower a.path == strLower "a/x.txt")
      = [change_action (fun _ => true) "a/x.txt"] :=
  (git_changes_dedup_single_action ["a/x.txt", "A/X.txt", "", "a/x.txt"]
    (fun _ => true) "a/x.txt" (by decide)).2.2.1

/-- Counterexample for C2.  With observation history `[a.txt, b.txt]`
(oldest first) the log listing is newest-first and is consumed without
reversal, so the applied order is `[b.txt, a.txt]`, not the observation
order: replay order is the reverse of "oldest first". -/
theorem replay_oldest_first_cex :
    (replay_actions (fun _ => true)
        (git_changes_list (git_log_lines ["a.txt", "b.txt"]))).map SyncAction.path
      = ["b.txt", "a.txt"]
    ∧ (["b.txt", "a.txt"] : List String) ≠ ["a.txt", "b.txt"] := by
  decide

/-- C2 (amended).  For every replay batch the change records are applied
exactly once each, in the order of the `git log` listing — newest first,
i.e. the reverse of the order the changes were observed in the source
history — and the surviving record of each case-insensitive path class is
its most recent observation. -/
theorem replay_newest_first (hist : List String) (isfile : String → Bool)
    (hne : ∀ p ∈ hist, p ≠ "") :
    ((replay_actions isfile (git_changes_list (git_log_lines hist))).map SyncAction.path
        = git_changes_list (git_log_lines hist))
    ∧ git_changes_list (git_log_lines hist) = dedupLowerAux hist.reverse []
    ∧ ∀ p ∈ git_changes_list (git_log_lines hist),
        (hist.filter (fun q => strLower q == strLower p)).getLast? = some p := by
  have hfe : (git_log_lines hist).filter (fun l => !(l == "")) = hist.reverse := by
    unfold git_log_lines
    rw [List.filter_eq_self]
    intro a ha
    have : a ≠ "" := hne a (List.mem_reverse.mp ha)
    simpa using this
  have heq : git_changes_list (git_log_lines hist) = dedupLowerAux hist.reverse [] := by
    unfold git_changes_list
    rw [hfe]
  refine ⟨?_, heq, ?_⟩
  · unfold replay_actions
    rw [List.map_map]
    have : ∀ q ∈ git_changes_list (git_log_lines hist),
        (SyncAction.path ∘ change_action isfile) q = id q := by
      intro q _
      simp [Function.comp, change_action_path]
    rw [List.map_congr_left this, List.map_id]
  · intro p hp
    rw [heq] at hp
    have h2 := (dedupLowerAux_head_filter _ _ _ hp).2
    rw [head_filter_reverse] at h2
    exact h2

/-- Witness for C2 (amended) at a concrete history: of the two
case-insensitive duplicates, the later (most recent) observation survives. -/
theorem replay_newest_first_witness :
    ((["x.txt", "X.txt"] : List String).filter
      (fun q => strLower q == strLower "X.txt")).getLast? = some "X.txt" :=
  (replay_newest_first ["x.txt", "X.txt"] (fun _ => false) (by decide)).2.2
    "X.txt" (by decide)

set_option maxRecDepth 8000 in
/-- C3 (evaluation at the failing input).  With a 250-character container
path, `trunc_filename` computes a negative remaining width and takes the
underflow branch, but that branch's `fatal_error("Cannot rename ...")` call
passes one argument to a three-parameter function, so Python raises
`TypeError` and no structural-limit diagnostic is produced; no rename-target
name is returned.  At a well-formed input the truncation does enforce
`len(container) + 1 + len(truncated) + ts_size ≤ 259`. -/
theorem trunc_filename_underflow_eval :
    trunc_filename c250 "x.txt" = .error PyErr.typeError
    ∧ trunc_filename d240 "0123456789abcdefghij" = .ok "01234567"
    ∧ d240.length + 1 + "01234567".length + ts_size ≤ pathlen_vss := by
  refine ⟨by decide, by decide, by decide⟩

/-- C8.  A (correctly invoked) fatal error releases the run's exclusive
lock on the root container (`ss undocheckout "<vss_proj>" -R`), restores
the working location to the base directory, prints the failing path with
the raw diagnostic, terminates the run with exit status 1, and no further
work is sequenced after it (no retry, no skipped entry). -/
theorem fatal_error_cleanup (cfg : Cfg) (msg subproj filename : String) (k : Nat) :
    Cmd.vssUndoCkout cfg.vss_proj ∈ (fatal_error cfg msg subproj filename k : R Unit).tr
    ∧ Cmd.chdir cfg.base_dir ∈ (fatal_error cfg msg subproj filename k : R Unit).tr
    ∧ Cmd.printMsg ("Error on " ++ subproj ++ "/" ++ filename ++ ": " ++ msg)
        ∈ (fatal_error cfg msg subproj filename k : R Unit).tr
    ∧ (fatal_error cfg msg subproj filename k : R Unit).out = .fatal msg subproj filename
    ∧ exit_code (fatal_error cfg msg subproj filename k : R Unit).out = 1
    ∧ ∀ f : Unit → Nat → R Unit,
        bindOut (fatal_error cfg msg subproj filename k : R Unit) f
          = (fatal_error cfg msg subproj filename k : R Unit) := by
  refine ⟨?_, ?_, ?_, rfl, rfl, fun f => rfl⟩ <;> simp [fatal_error, fatalCmds]

set_option maxRecDepth 8000 in
/-- C9.  Each malformed `fatal_error` call site, when reached, raises a
Python `TypeError` (wrong arity) or `NameError` (unbound `subproj` /
`filename`), and none of `fatal_error`'s documented cleanup runs: the trace
contains neither the root undo-checkout nor the return to the base
directory.  Sites: `trunc_filename` line 186; `vss_git_hash_set` lines 226
and 228; `vss_create_cd` line 247; `vss_cd_create` line 282; the rename
branch of `vss_add_or_modify` line 315. -/
theorem fatal_error_callsite_bugs :
    (trunc_filename a249 "b" = .error PyErr.typeError)
    ∧ ((vss_git_hash_set cfgW envSetA "deadbeef" 0).out = Out.exn PyErr.typeError
        ∧ ∀ c ∈ (vss_git_hash_set cfgW envSetA "deadbeef" 0).tr,
            c ≠ Cmd.vssUndoCkout cfgW.vss_proj ∧ c ≠ Cmd.chdir cfgW.base_dir)
    ∧ ((vss_git_hash_set cfgW envSetB "deadbeef" 0).out = Out.exn PyErr.nameError
        ∧ ∀ c ∈ (vss_git_hash_set cfgW envSetB "deadbeef" 0).tr,
            c ≠ Cmd.vssUndoCkout cfgW.vss_proj ∧ c ≠ Cmd.chdir cfgW.base_dir)
    ∧ ((vss_create_cd cfgW envSetB "sub" 0).out = Out.exn PyErr.nameError
        ∧ ∀ c ∈ (vss_create_cd cfgW envSetB "sub" 0).tr,
            c ≠ Cmd.vssUndoCkout cfgW.vss_proj ∧ c ≠ Cmd.chdir cfgW.base_dir)
    ∧ ((vss_cd_create cfgW envKaboom "sub" 0).out = Out.exn PyErr.nameError
        ∧ ∀ c ∈ (vss_cd_create cfgW envKaboom "sub" 0).tr,
            c ≠ Cmd.vssUndoCkout cfgW.vss_proj ∧ c ≠ Cmd.chdir cfgW.base_dir)
    ∧ ((vss_add_or_modify cfgW envAm "" "f.txt" 0).out = Out.exn PyErr.typeError
        ∧ ∀ c ∈ (vss_add_or_modify cfgW envAm "" "f.txt" 0).tr,
            c ≠ Cmd.vssUndoCkout cfgW.vss_proj ∧ c ≠ Cmd.chdir cfgW.base_dir) := by
  decide

/-- C10.  The argument-count precondition accepts any invocation with at
least five operation arguments (`len(sys.argv) >= 6`); with exactly the five
parameters of the usage text (`len(sys.argv) = 6`) the check passes and the
unconditional read of `sys.argv[6]` raises `IndexError` (interpreter exit
status 1) before any synchronisation work; a rejected invocation exits via
`sys.exit()` with status 0. -/
theorem cli_arg_check (argv : List String) :
    (6 ≤ argv.length → cli_parse argv ≠ .exitHelp)
    ∧ (argv.length = 6 →
        cli_parse argv = .indexError ∧ cli_exit_code (cli_parse argv) = some 1)
    ∧ (argv.length < 6 →
        cli_parse argv = .exitHelp ∧ cli_exit_code (cli_parse argv) = some 0)
    ∧ (7 ≤ argv.length →
        cli_parse argv ≠ .exitHelp ∧ cli_parse argv ≠ .indexError) := by
  refine ⟨?_, ?_, ?_, ?_⟩
  · intro h6
    unfold cli_parse
    rw [if_neg (by omega)]
    rcases hg : argv.get? 6 with _ | a
    · simp
    · simp
  · intro h6
    have hg : argv.get? 6 = none := List.get?_eq_none.mpr (by omega)
    unfold cli_parse
    rw [if_neg (by omega), hg]
    exact ⟨rfl, rfl⟩
  · intro h6
    unfold cli_parse
    rw [if_pos h6]
    exact ⟨rfl, rfl⟩
  · intro h7
    have hg : argv.get? 6 = some (argv.get ⟨6, by omega⟩) := List.get?_eq_get (by omega)
    unfold cli_parse
    rw [if_neg (by omega), hg]
    simp

/-- Witness for C10 at concrete invocations: exactly five operation
arguments pass the check and hit the IndexError; a short invocation exits
with status 0. -/
theorem cli_arg_check_witness :
    (cli_parse ["sync.py", "base", "url", "branch", "proj", "user"] = CliOutcome.indexError
      ∧ cli_exit_code (cli_parse ["sync.py", "base", "url", "branch", "proj", "user"]) = some 1)
    ∧ (cli_parse ["sync.py"] = CliOutcome.exitHelp
      ∧ cli_exit_code (cli_parse ["sync.py"]) = some 0) :=
  ⟨(cli_arg_check ["sync.py", "base", "url", "branch", "proj", "user"]).2.1 (by decide),
   (cli_arg_check ["sync.py"]).2.2.1 (by decide)⟩

/-- C5.  `vss_add_or_modify` first enters (creating if absent) the
containing path, then attempts the add; an add failure ending in "already
exists" falls through to modify — checkout then checkin; a checkout failure
containing "You currently have" checks in directly; a checkin failure after
a successful or already-held checkout is a (correctly invoked) fatal error;
any other add or checkout failure is fatal. -/
theorem vss_add_or_modify_fallbacks (cfg : Cfg) (env : Nat → Res)
    (subproj filename : String) (k : Nat)
    (hcd : (vss_cd_create cfg env subproj k).out = Out.ret ()) :
    (vss_add_or_modify cfg env subproj filename k
        = withTr (vss_cd_create cfg env subproj k).tr
            (amCore cfg env subproj filename (vss_cd_create cfg env subproj k).k))
    ∧ (∀ o, env (vss_cd_create cfg env subproj k).k = .ok o →
        amCore cfg env subproj filename (vss_cd_create cfg env subproj k).k
          = ⟨[.vssAdd filename], (vss_cd_create cfg env subproj k).k + 1, .ret ()⟩)
    ∧ (∀ m, env (vss_cd_create cfg env subproj k).k = .err m →
        endsWithB m "already exists" = false →
        (amCore cfg env subproj filename (vss_cd_create cfg env subproj k).k).out
          = .fatal m subproj filename)
    ∧ (∀ m, env (vss_cd_create cfg env subproj k).k = .err m →
        endsWithB m "already exists" = true →
        (amCore cfg env subproj filename (vss_cd_create cfg env subproj k).k).tr.take 2
          = [.vssAdd filename, .vssCkout filename])
    ∧ (∀ m o, env (vss_cd_create cfg env subproj k).k = .err m →
        endsWithB m "already exists" = true →
        env ((vss_cd_create cfg env subproj k).k + 1) = .ok o →
        (amCore cfg env subproj filename (vss_cd_create cfg env subproj k).k).tr.take 3
          = [.vssAdd filename, .vssCkout filename, .vssCkin filename]
        ∧ ∀ m3, env ((vss_cd_create cfg env subproj k).k + 2) = .err m3 →
            (amCore cfg env subproj filename (vss_cd_create cfg env subproj k).k).out
              = .fatal m3 subproj filename)
    ∧ (∀ m m2, env (vss_cd_create cfg env subproj k).k = .err m →
        endsWithB m "already exists" = true →
        env ((vss_cd_create cfg env subproj k).k + 1) = .err m2 →
        substrB m2 "You currently have" = true →
        (amCore cfg env subproj filename (vss_cd_create cfg env subproj k).k).tr.take 3
          = [.vssAdd filename, .vssCkout filename, .vssCkin filename]
        ∧ ∀ m3, env ((vss_cd_create cfg env subproj k).k + 2) = .err m3 →
            (amCore cfg env subproj filename (vss_cd_create cfg env subproj k).k).out
              = .fatal m3 subproj filename)
    ∧ (∀ m m2, env (vss_cd_create cfg env subproj k).k = .err m →
        endsWithB m "already exists" = true →
        env ((vss_cd_create cfg env subproj k).k + 1) = .err m2 →
        substrB m2 "You currently have" = false →
        (amCore cfg env subproj filename (vss_cd_create cfg env subproj k).k).out
          = .fatal m2 subproj filename) := by
  refine ⟨?_, ?_, ?_, ?_, ?_, ?_, ?_⟩
  · unfold vss_add_or_modify
    exact bindOut_ret _ _ _ hcd
  · intro o ho
    simp [amCore, ho]
  · intro m hm hends
    simp [amCore, hm, hends, fatal_error, withTr]
  · intro m hm hends
    simp only [amCore, hm, hends]
    rcases h1 : env ((vss_cd_create cfg env subproj k).k + 1) with o2 | m2
    · rcases h2 : env ((vss_cd_create cfg env subproj k).k + 2) with o3 | m3
      · rcases h3 : env ((vss_cd_create cfg env subproj k).k + 2 + 1) with o4 | m4
        · simp [h1, h2, h3]
        · rcases hn : substrB m4 "that name already exists" with _ | _ <;>
            simp [h1, h2, h3, hn]
      · simp [h1, h2, fatal_error, withTr, fatalCmds]
    · rcases hyc : substrB m2 "You currently have" with _ | _
      · simp [h1, hyc, fatal_error, withTr, fatalCmds]
      · rcases h2 : env ((vss_cd_create cfg env subproj k).k + 2) with o3 | m3
        · rcases h3 : env ((vss_cd_create cfg env subproj k).k + 3) with o4 | m4
          · rcases h4 : env ((vss_cd_create cfg env subproj k).k + 3 + 1) with o5 | m5
            · simp [h1, hyc, h2, h3, h4]
            · rcases hn : substrB m5 "that name already exists" with _ | _ <;>
                simp [h1, hyc, h2, h3, h4, hn]
          · simp [h1, hyc, h2, h3, fatal_error, withTr, fatalCmds]
        · simp [h1, hyc, h2, fatal_error, withTr, fatalCmds]
  · intro m o hm hends h1
    simp only [amCore, hm, hends, h1]
    constructor
    · rcases h2 : env ((vss_cd_create cfg env subproj k).k + 2) with o3 | m3
      · rcases h3 : env ((vss_cd_create cfg env subproj k).k + 3) with o4 | m4
        · simp [h2, h3]
        · rcases hn : substrB m4 "that name already exists" with _ | _ <;>
            simp [h2, h3, hn]
      · simp [h2, fatal_error, withTr, fatalCmds]
    · intro m3 h2
      simp [h2, fatal_error, withTr, fatalCmds]
  · intro m m2 hm hends h1 hyc
    simp only [amCore, hm, hends, h1, hyc]
    constructor
    · rcases h2 : env ((vss_cd_create cfg env subproj k).k + 2) with o3 | m3
      · rcases h3 : env ((vss_cd_create cfg env subproj k).k + 3) with o4 | m4
        · rcases h4 : env ((vss_cd_create cfg env subproj k).k + 4) with o5 | m5
          · simp [h2, h3, h4]
          · rcases hn : substrB m5 "that name already exists" with _ | _ <;>
              simp [h2, h3, h4, hn]
        · simp [h2, h3, fatal_error, withTr, fatalCmds]
      · simp [h2, fatal_error, withTr, fatalCmds]
    · intro m3 h2
      simp [h2, fatal_error, withTr, fatalCmds]
  · intro m m2 hm hends h1 hyc
    simp [amCore, hm, hends, h1, hyc, fatal_error, withTr, fatalCmds]

/-- Witness for C5 at a concrete run: add reports "already exists", checkout
succeeds, and the modify path issues checkout then checkin. -/
theorem vss_add_or_modify_fallbacks_witness :
    (amCore cfgW envAm "" "f.txt" ((vss_cd_create cfgW envAm "" 0).k)).tr.take 3
      = [Cmd.vssAdd "f.txt", Cmd.vssCkout "f.txt", Cmd.vssCkin "f.txt"] :=
  ((vss_add_or_modify_fallbacks cfgW envAm "" "f.txt" 0 (by decide)).2.2.2.2.1
    "already exists" "" (by decide) (by decide) (by decide)).1

/-- C6.  `vss_delete` follows the safe-delete sequence — checkout, rename to
the truncated name plus the timestamp, delete of the renamed entry; the
operation succeeds when the delete succeeds or the store already reports
"has been deleted"; and a checkout failure saying the entry is "not an
existing" one is treated as already-absent: the whole delete is a no-op
(the hypothesis `cfg.isdir subproj = true` keeps the subsequent
empty-container cascade of line 371-373 out of scope of this claim). -/
theorem vss_delete_safe_delete (cfg : Cfg) (env : Nat → Res)
    (subproj filename : String) (k : Nat) (hdir : cfg.isdir subproj = true) :
    (∀ o m, env k = .ok o → env (k + 1) = .err m → substrB m "not an existing" = true →
       vss_delete cfg env subproj filename k
         = ⟨[.vssCd subproj, .vssCkout filename], k + 2, .ret ()⟩)
    ∧ (∀ o o2 t, env k = .ok o → env (k + 1) = .ok o2 →
        trunc_filename subproj filename = .ok t →
        (∀ o3 o4, env (k + 2) = .ok o3 → env (k + 3) = .ok o4 →
           vss_delete cfg env subproj filename k
             = ⟨[.vssCd subproj, .vssCkout filename, .vssRename filename (t ++ cfg.ts),
                 .vssDel (t ++ cfg.ts)], k + 4, .ret ()⟩)
        ∧ (∀ o3 m4, env (k + 2) = .ok o3 → env (k + 3) = .err m4 →
             substrB m4 "has been deleted" = true →
             vss_delete cfg env subproj filename k
               = ⟨[.vssCd subproj, .vssCkout filename, .vssRename filename (t ++ cfg.ts),
                   .vssDel (t ++ cfg.ts)], k + 4, .ret ()⟩)
        ∧ (∀ o3 m4, env (k + 2) = .ok o3 → env (k + 3) = .err m4 →
             substrB m4 "has been deleted" = false →
             (vss_delete cfg env subproj filename k).out = .fatal m4 subproj filename)
        ∧ (∀ m3, env (k + 2) = .err m3 →
             (vss_delete cfg env subproj filename k).out = .fatal m3 subproj filename)) := by
  constructor
  · intro o m ho hm hsub
    simp [vss_delete, ho, hm, hsub]
  · intro o o2 t ho h1 ht
    refine ⟨?_, ?_, ?_, ?_⟩
    · intro o3 o4 h2 h3
      simp [vss_delete, ho, h1, ht, h2, h3, hdir]
    · intro o3 m4 h2 h3 hsub
      simp [vss_delete, ho, h1, ht, h2, h3, hsub, hdir]
    · intro o3 m4 h2 h3 hsub
      simp [vss_delete, ho, h1, ht, h2, h3, hsub, hdir, fatal_error, withTr, fatalCmds]
    · intro m3 h2
      simp [vss_delete, ho, h1, ht, h2, fatal_error, withTr, fatalCmds]

set_option maxRecDepth 8000 in
/-- Witness for C6 at a concrete run: checkout, rename and delete all
succeed, producing exactly the safe-delete command sequence. -/
theorem vss_delete_safe_delete_witness :
    vss_delete cfgW envOk "a" "f.txt" 0
      = ⟨[Cmd.vssCd "a", Cmd.vssCkout "f.txt",
          Cmd.vssRename "f.txt" ("f.txt" ++ cfgW.ts),
          Cmd.vssDel ("f.txt" ++ cfgW.ts)], 4, .ret ()⟩ :=
  ((vss_delete_safe_delete cfgW envOk "a" "f.txt" 0 (by decide)).2 "" "" "f.txt"
    (by decide) (by decide) (by decide)).1 "" "" (by decide) (by decide)

set_option maxHeartbeats 2000000 in
/-- C7.  After a leaf delete, when the containing directory no longer exists
in the source tree (`cfg.isdir subproj = false`, line 371), `vss_delete`
hands over to `vss_delete_empty_subproj`; the cleanup stops before the root
(it does nothing at `""`), stops at the first container whose listing does
not report "No items found" without issuing any rename or delete, and
removes an empty container via rename followed by delete, then moves to the
parent and recurses on it. -/
theorem vss_delete_empty_cascade (cfg : Cfg) (env : Nat → Res)
    (subproj filename : String) (k : Nat) :
    (subproj = "" → vss_delete_empty_subproj cfg env subproj k = ⟨[], k, .ret ()⟩)
    ∧ (subproj ≠ "" → substrB (envOut (env k)) "No items found" = false →
        vss_delete_empty_subproj cfg env subproj k = ⟨[.vssDir], k + 1, .ret ()⟩)
    ∧ (∀ t, subproj ≠ "" → substrB (envOut (env k)) "No items found" = true →
        trunc_filename (dirname subproj) (basename subproj) = .ok t →
        ∀ o1 o2 o3, env (k + 1) = .ok o1 → env (k + 2) = .ok o2 → env (k + 3) = .ok o3 →
        vss_delete_empty_subproj cfg env subproj k
          = withTr [.vssDir,
              .vssRename (cfg.vss_proj ++ "/" ++ dirname subproj ++ "/" ++ basename subproj)
                (cfg.vss_proj ++ "/" ++ dirname subproj ++ "/" ++ (t ++ cfg.ts)),
              .vssDel (cfg.vss_proj ++ "/" ++ dirname subproj ++ "/" ++ (t ++ cfg.ts)),
              .vssCp (cfg.vss_proj ++ "/" ++ dirname subproj)]
              (vss_delete_empty_subproj cfg env (dirname subproj) (k + 4)))
    ∧ (∀ o o2 t o3 o4, cfg.isdir subproj = false →
        env k = .ok o → env (k + 1) = .ok o2 →
        trunc_filename subproj filename = .ok t →
        env (k + 2) = .ok o3 → env (k + 3) = .ok o4 →
        vss_delete cfg env subproj filename k
          = withTr [.vssCd subproj, .vssCkout filename,
              .vssRename filename (t ++ cfg.ts), .vssDel (t ++ cfg.ts)]
              (vss_delete_empty_subproj cfg env subproj (k + 4))) := by
  refine ⟨?_, ?_, ?_, ?_⟩
  · intro hsp
    rw [vss_delete_empty_subproj.eq_def]
    simp [hsp]
  · intro hsp hdir
    rw [vss_delete_empty_subproj.eq_def]
    simp [hsp, hdir, vss_delete_empty_step]
  · intro t hsp hdir ht o1 o2 o3 h1 h2 h3
    rw [vss_delete_empty_subproj.eq_def]
    simp [hsp, hdir, ht, h1, h2, h3, withTr, vss_delete_empty_step]
  · intro o o2 t o3 o4 hdir ho h1 ht h2 h3
    simp [vss_delete, ho, h1, ht, h2, h3, hdir, withTr]

set_option maxRecDepth 8000 in
/-- Witness for C7 at a concrete cascade: the empty container `a/b/c` is
renamed and deleted, and the cleanup proceeds to the parent `a/b`. -/
theorem vss_delete_empty_cascade_witness :
    vss_delete_empty_subproj cfgW envC7 "a/b/c" 0
      = withTr [.vssDir,
          .vssRename (cfgW.vss_proj ++ "/" ++ dirname "a/b/c" ++ "/" ++ basename "a/b/c")
            (cfgW.vss_proj ++ "/" ++ dirname "a/b/c" ++ "/" ++ ("c" ++ cfgW.ts)),
          .vssDel (cfgW.vss_proj ++ "/" ++ dirname "a/b/c" ++ "/" ++ ("c" ++ cfgW.ts)),
          .vssCp (cfgW.vss_proj ++ "/" ++ dirname "a/b/c")]
          (vss_delete_empty_subproj cfgW envC7 (dirname "a/b/c") 4) :=
  (vss_delete_empty_cascade cfgW envC7 "a/b/c" "" 0).2.2.1 "c" (by decide) (by decide)
    (by decide) "" "" "" (by decide) (by decide) (by decide)

/-!
### Marker-command accounting, toward the sync-marker lifecycle claim

`isMarkerRead` commands are issued only by `vss_git_hash_get` (exactly one
per invocation) and `isMarkerWrite` commands only by `vss_git_hash_set`; no
function of the change-processing phase issues either.
-/

theorem countP_bindOut_zero {α β : Type} (p : Cmd → Bool) (r : R α)
    (f : α → Nat → R β) (hr : r.tr.countP p = 0)
    (hf : ∀ a k, ((f a k).tr.countP p) = 0) :
    (bindOut r f).tr.countP p = 0 := by
  rcases hout : r.out with a | ⟨m1, sp1, fn1⟩ | e1 | m1 <;>
    simp [bindOut, hout, List.countP_append, hr, hf]

theorem bindOut_fatal {α β : Type} (r : R α) (f : α → Nat → R β)
    (m sp fn : String) (h : r.out = .fatal m sp fn) :
    bindOut r f = ⟨r.tr, r.k, .fatal m sp fn⟩ := by
  unfold bindOut
  rw [h]

theorem bindOut_exn {α β : Type} (r : R α) (f : α → Nat → R β)
    (e : PyErr) (h : r.out = .exn e) :
    bindOut r f = ⟨r.tr, r.k, .exn e⟩ := by
  unfold bindOut
  rw [h]

theorem bindOut_cpe {α β : Type} (r : R α) (f : α → Nat → R β)
    (m : String) (h : r.out = .cpe m) :
    bindOut r f = ⟨r.tr, r.k, .cpe m⟩ := by
  unfold bindOut
  rw [h]

theorem dirname_length_lt (s : String) (h : s ≠ "") :
    (dirname s).length < s.length := by
  have h1 : (s.data.reverse.dropWhile (fun c => c ≠ '/')).length ≤ s.data.length := by
    calc (s.data.reverse.dropWhile (fun c => c ≠ '/')).length
        ≤ s.data.reverse.length := (List.dropWhile_suffix _).length_le
      _ = s.data.length := List.length_reverse _
  have h2 : 1 ≤ s.data.length := by
    rcases s with ⟨l⟩
    cases l with
    | nil => exact absurd (by decide : String.mk [] = "") h
    | cons c cs => simp
  simp only [dirname, String.length, List.length_reverse, List.length_drop]
  omega

theorem string_eq_empty_of_length_zero (s : String) (h : s.length = 0) : s = "" := by
  rcases s with ⟨l⟩
  cases l with
  | nil => decide
  | cons c cs => simp [String.length] at h

theorem fatal_error_marker_free {α : Type} (cfg : Cfg) (m sp fn : String) (k : Nat) :
    (fatal_error cfg m sp fn k : R α).tr.countP isMarkerRead = 0
    ∧ (fatal_error cfg m sp fn k : R α).tr.countP isMarkerWrite = 0 := by
  constructor <;> simp [fatal_error, fatalCmds, isMarkerRead, isMarkerWrite]

theorem vss_cd_root_marker_free (cfg : Cfg) (env : Nat → Res) (k : Nat) :
    (vss_cd_root cfg env k).tr.countP isMarkerRead = 0
    ∧ (vss_cd_root cfg env k).tr.countP isMarkerWrite = 0 := by
  constructor
  all_goals
    unfold vss_cd_root
    try dsimp only
    repeat' split
    all_goals simp [withTr, fatal_error, fatalCmds, isMarkerRead, isMarkerWrite]

theorem vss_rename_cd_marker_free (cfg : Cfg) (env : Nat → Res) (sp : String) (k : Nat) :
    (vss_rename_cd cfg env sp k).tr.countP isMarkerRead = 0
    ∧ (vss_rename_cd cfg env sp k).tr.countP isMarkerWrite = 0 := by
  constructor
  all_goals
    unfold vss_rename_cd
    try dsimp only
    repeat' split
    all_goals simp [isMarkerRead, isMarkerWrite]

theorem vss_create_cd_marker_free (cfg : Cfg) (env : Nat → Res) (p : String) (k : Nat) :
    (vss_create_cd cfg env p k).tr.countP isMarkerRead = 0
    ∧ (vss_create_cd cfg env p k).tr.countP isMarkerWrite = 0 := by
  constructor
  all_goals
    unfold vss_create_cd
    try dsimp only
    repeat' split
    all_goals simp [isMarkerRead, isMarkerWrite]

theorem createCdLoop_marker_free (cfg : Cfg) (env : Nat → Res) (ds : List String) :
    ∀ k : Nat, (createCdLoop cfg env ds k).tr.countP isMarkerRead = 0
    ∧ (createCdLoop cfg env ds k).tr.countP isMarkerWrite = 0 := by
  induction ds with
  | nil => intro k; simp [createCdLoop]
  | cons d rest ih =>
    intro k
    constructor
    · exact countP_bindOut_zero _ _ _ (vss_create_cd_marker_free cfg env d k).1
        (fun _ k2 => (ih k2).1)
    · exact countP_bindOut_zero _ _ _ (vss_create_cd_marker_free cfg env d k).2
        (fun _ k2 => (ih k2).2)

theorem renameCdLoop_marker_free (cfg : Cfg) (env : Nat → Res) (ds : List String) :
    ∀ k : Nat, (renameCdLoop cfg env ds k).tr.countP isMarkerRead = 0
    ∧ (renameCdLoop cfg env ds k).tr.countP isMarkerWrite = 0 := by
  induction ds with
  | nil => intro k; simp [renameCdLoop]
  | cons d rest ih =>
    intro k
    constructor
    · exact countP_bindOut_zero _ _ _ (vss_rename_cd_marker_free cfg env d k).1
        (fun _ k2 => (ih k2).1)
    · exact countP_bindOut_zero _ _ _ (vss_rename_cd_marker_free cfg env d k).2
        (fun _ k2 => (ih k2).2)

theorem vss_create_subproj_marker_free (cfg : Cfg) (env : Nat → Res) :
    ∀ (n : Nat) (path : String), path.length ≤ n → ∀ (dirs : List String) (k : Nat),
    (vss_create_subproj cfg env path dirs k).tr.countP isMarkerRead = 0
    ∧ (vss_create_subproj cfg env path dirs k).tr.countP isMarkerWrite = 0 := by
  intro n
  induction n with
  | zero =>
    intro path hp dirs k
    have hpe : path = "" := string_eq_empty_of_length_zero _ (Nat.le_zero.mp hp)
    have hde : dirname path = "" := by rw [hpe]; decide
    rw [vss_create_subproj.eq_def]
    simp [hde, createCdLoop_marker_free]
  | succ n ih =>
    intro path hp dirs k
    rw [vss_create_subproj.eq_def]
    split
    · exact createCdLoop_marker_free cfg env _ k
    · rename_i hdn
      split
      · constructor
        · simp [withTr, List.countP_append, isMarkerRead,
            (createCdLoop_marker_free cfg env (basename path :: dirs) (k + 1)).1]
        · simp [withTr, List.countP_append, isMarkerWrite,
            (createCdLoop_marker_free cfg env (basename path :: dirs) (k + 1)).2]
      · rename_i m
        have hlt : (dirname path).length ≤ n := by
          have hne : path ≠ "" := by
            intro he
            exact hdn (by rw [he]; decide)
          have := dirname_length_lt path hne
          omega
        constructor
        · simp [withTr, List.countP_append, isMarkerRead,
            (ih (dirname path) hlt (basename path :: dirs) (k + 1)).1]
        · simp [withTr, List.countP_append, isMarkerWrite,
            (ih (dirname path) hlt (basename path :: dirs) (k + 1)).2]

theorem amCore_marker_free (cfg : Cfg) (env : Nat → Res) (sp fn : String) (k : Nat) :
    (amCore cfg env sp fn k).tr.countP isMarkerRead = 0
    ∧ (amCore cfg env sp fn k).tr.countP isMarkerWrite = 0 := by
  constructor
  all_goals
    unfold amCore
    try dsimp only
    repeat' split
    all_goals simp [withTr, fatal_error, fatalCmds, List.countP_append,
      isMarkerRead, isMarkerWrite]

theorem vss_cd_create_marker_free (cfg : Cfg) (env : Nat → Res) (subproj : String) (k : Nat) :
    (vss_cd_create cfg env subproj k).tr.countP isMarkerRead = 0
    ∧ (vss_cd_create cfg env subproj k).tr.countP isMarkerWrite = 0 := by
  have hLr : (bindOut (renameCdLoop cfg env (splitChar '/' subproj) k)
      (fun _ k2 => (⟨[.chdir subproj], k2, .ret ()⟩ : R Unit))).tr.countP isMarkerRead = 0 :=
    countP_bindOut_zero _ _ _ (renameCdLoop_marker_free cfg env _ k).1
      (fun _ k2 => by simp [isMarkerRead])
  have hLw : (bindOut (renameCdLoop cfg env (splitChar '/' subproj) k)
      (fun _ k2 => (⟨[.chdir subproj], k2, .ret ()⟩ : R Unit))).tr.countP isMarkerWrite = 0 :=
    countP_bindOut_zero _ _ _ (renameCdLoop_marker_free cfg env _ k).2
      (fun _ k2 => by simp [isMarkerWrite])
  have hcsR : ∀ k2 : Nat, (bindOut (vss_cd_root cfg env k2)
      (fun _ k3 => vss_create_subproj cfg env subproj [] k3)).tr.countP isMarkerRead = 0 :=
    fun k2 => countP_bindOut_zero _ _ _ (vss_cd_root_marker_free cfg env k2).1
      (fun _ k3 => (vss_create_subproj_marker_free cfg env subproj.length subproj
        le_rfl [] k3).1)
  have hcsW : ∀ k2 : Nat, (bindOut (vss_cd_root cfg env k2)
      (fun _ k3 => vss_create_subproj cfg env subproj [] k3)).tr.countP isMarkerWrite = 0 :=
    fun k2 => countP_bindOut_zero _ _ _ (vss_cd_root_marker_free cfg env k2).2
      (fun _ k3 => (vss_create_subproj_marker_free cfg env subproj.length subproj
        le_rfl [] k3).2)
  constructor
  all_goals
    unfold vss_cd_create
    try dsimp only
    repeat' split
    all_goals simp_all [withTr, List.countP_append]
    all_goals first
      | exact hcsR _
      | exact hcsW _

theorem vss_add_or_modify_marker_free (cfg : Cfg) (env : Nat → Res)
    (sp fn : String) (k : Nat) :
    (vss_add_or_modify cfg env sp fn k).tr.countP isMarkerRead = 0
    ∧ (vss_add_or_modify cfg env sp fn k).tr.countP isMarkerWrite = 0 := by
  constructor
  · exact countP_bindOut_zero _ _ _ (vss_cd_create_marker_free cfg env sp k).1
      (fun _ k1 => (amCore_marker_free cfg env sp fn k1).1)
  · exact countP_bindOut_zero _ _ _ (vss_cd_create_marker_free cfg env sp k).2
      (fun _ k1 => (amCore_marker_free cfg env sp fn k1).2)

theorem vss_delete_empty_step_marker_free (cfg : Cfg) (env : Nat → Res)
    (subproj : String) (k : Nat) (recurse : Nat → R Unit)
    (hrecR : ∀ k2, (recurse k2).tr.countP isMarkerRead = 0)
    (hrecW : ∀ k2, (recurse k2).tr.countP isMarkerWrite = 0) :
    (vss_delete_empty_step cfg env subproj k recurse).tr.countP isMarkerRead = 0
    ∧ (vss_delete_empty_step cfg env subproj k recurse).tr.countP isMarkerWrite = 0 := by
  constructor
  all_goals
    unfold vss_delete_empty_step
    try dsimp only
    repeat' split
    all_goals simp_all [withTr, fatal_error, fatalCmds, List.countP_append,
      isMarkerRead, isMarkerWrite]
    all_goals first
      | exact hrecR _
      | exact hrecW _

theorem vss_delete_empty_subproj_marker_free (cfg : Cfg) (env : Nat → Res) :
    ∀ (n : Nat) (subproj : String), subproj.length ≤ n → ∀ k : Nat,
    (vss_delete_empty_subproj cfg env subproj k).tr.countP isMarkerRead = 0
    ∧ (vss_delete_empty_subproj cfg env subproj k).tr.countP isMarkerWrite = 0 := by
  intro n
  induction n with
  | zero =>
    intro sp hsp k
    have hpe : sp = "" := string_eq_empty_of_length_zero _ (Nat.le_zero.mp hsp)
    rw [vss_delete_empty_subproj.eq_def]
    simp [hpe]
  | succ n ih =>
    intro sp hsp k
    rw [vss_delete_empty_subproj.eq_def]
    split
    · simp
    · rename_i hne
      have hlen : (dirname sp).length ≤ n := by
        have := dirname_length_lt sp hne
        omega
      exact vss_delete_empty_step_marker_free cfg env sp k _
        (fun k2 => (ih _ hlen k2).1) (fun k2 => (ih _ hlen k2).2)

theorem vss_delete_marker_free (cfg : Cfg) (env : Nat → Res)
    (subproj filename : String) (k : Nat) :
    (vss_delete cfg env subproj filename k).tr.countP isMarkerRead = 0
    ∧ (vss_delete cfg env subproj filename k).tr.countP isMarkerWrite = 0 := by
  have hdeR : ∀ k2 : Nat,
      (vss_delete_empty_subproj cfg env subproj k2).tr.countP isMarkerRead = 0 :=
    fun k2 => (vss_delete_empty_subproj_marker_free cfg env subproj.length subproj
      le_rfl k2).1
  have hdeW : ∀ k2 : Nat,
      (vss_delete_empty_subproj cfg env subproj k2).tr.countP isMarkerWrite = 0 :=
    fun k2 => (vss_delete_empty_subproj_marker_free cfg env subproj.length subproj
      le_rfl k2).2
  constructor
  all_goals
    unfold vss_delete
    try dsimp only
    repeat' split
    all_goals simp_all [withTr, fatal_error, fatalCmds, List.countP_append,
      isMarkerRead, isMarkerWrite]
    all_goals first
      | exact hdeR _
      | exact hdeW _

theorem process_change_marker_free (cfg : Cfg) (env : Nat → Res)
    (path : String) (i t k : Nat) :
    (process_change cfg env path i t k).tr.countP isMarkerRead = 0
    ∧ (process_change cfg env path i t k).tr.countP isMarkerWrite = 0 := by
  constructor
  all_goals
    unfold process_change
    refine countP_bindOut_zero _ _ _ ?_ ?_
    · first
      | exact (vss_cd_root_marker_free cfg env k).1
      | exact (vss_cd_root_marker_free cfg env k).2
    · intro _ k1
      by_cases hf : cfg.isfile path = true
      all_goals simp_all [withTr, List.countP_append, isMarkerRead, isMarkerWrite,
        vss_add_or_modify_marker_free, vss_delete_marker_free]

theorem process_changes_go_marker_free (cfg : Cfg) (env : Nat → Res) (t : Nat)
    (cs : List String) : ∀ (i k : Nat),
    (process_changes_go cfg env i t cs k).tr.countP isMarkerRead = 0
    ∧ (process_changes_go cfg env i t cs k).tr.countP isMarkerWrite = 0 := by
  induction cs with
  | nil => intro i k; simp [process_changes_go]
  | cons c rest ih =>
    intro i k
    constructor
    · exact countP_bindOut_zero _ _ _ (process_change_marker_free cfg env c i t k).1
        (fun _ k2 => (ih (i + 1) k2).1)
    · exact countP_bindOut_zero _ _ _ (process_change_marker_free cfg env c i t k).2
        (fun _ k2 => (ih (i + 1) k2).2)

theorem process_changes_marker_free (cfg : Cfg) (env : Nat → Res)
    (cs : List String) (k : Nat) :
    (process_changes cfg env cs k).tr.countP isMarkerRead = 0
    ∧ (process_changes cfg env cs k).tr.countP isMarkerWrite = 0 := by
  constructor
  · exact countP_bindOut_zero _ _ _ (process_changes_go_marker_free cfg env _ cs 1 k).1
      (fun _ k2 => by simp [isMarkerRead])
  · exact countP_bindOut_zero _ _ _ (process_changes_go_marker_free cfg env _ cs 1 k).2
      (fun _ k2 => by simp [isMarkerWrite])

theorem git_hash_run_marker_free (env : Nat → Res) (k : Nat) :
    (git_hash_run env k).tr.countP isMarkerRead = 0
    ∧ (git_hash_run env k).tr.countP isMarkerWrite = 0 := by
  constructor <;> simp [git_hash_run, isMarkerRead, isMarkerWrite]

theorem git_changes_run_marker_free (env : Nat → Res) (since : Option String) (k : Nat) :
    (git_changes_run env since k).tr.countP isMarkerRead = 0
    ∧ (git_changes_run env since k).tr.countP isMarkerWrite = 0 := by
  constructor <;> simp [git_changes_run, isMarkerRead, isMarkerWrite]

theorem vss_git_hash_set_read_free (cfg : Cfg) (env : Nat → Res)
    (commit : String) (k : Nat) :
    (vss_git_hash_set cfg env commit k).tr.countP isMarkerRead = 0 := by
  unfold vss_git_hash_set
  repeat' split
  all_goals simp [isMarkerRead]

theorem vss_git_hash_set_not_fatal (cfg : Cfg) (env : Nat → Res)
    (commit : String) (k : Nat) (m sp fn : String) :
    (vss_git_hash_set cfg env commit k).out ≠ .fatal m sp fn := by
  unfold vss_git_hash_set
  repeat' split
  all_goals simp

theorem vss_git_hash_set_echo (cfg : Cfg) (env : Nat → Res)
    (commit : String) (k : Nat) :
    Cmd.winEcho commit gitcommit_file ∈ (vss_git_hash_set cfg env commit k).tr := by
  unfold vss_git_hash_set
  repeat' split
  all_goals simp

theorem vss_git_hash_get_read_one (cfg : Cfg) (env : Nat → Res) (k : Nat) :
    (vss_git_hash_get cfg env k).tr.countP isMarkerRead = 1 := by
  unfold vss_git_hash_get
  repeat' split
  all_goals simp [withTr, fatal_error, fatalCmds, List.countP_append,
    isMarkerRead, gitcommit_file]

theorem vss_git_hash_get_write_free (cfg : Cfg) (env : Nat → Res) (k : Nat) :
    (vss_git_hash_get cfg env k).tr.countP isMarkerWrite = 0 := by
  unfold vss_git_hash_get
  repeat' split
  all_goals simp [withTr, fatal_error, fatalCmds, List.countP_append, isMarkerWrite]

theorem process_changes_print (cfg : Cfg) (env : Nat → Res)
    (cs : List String) (k : Nat)
    (h : (process_changes cfg env cs k).out = .ret ()) :
    Cmd.printMsg "All changes processed" ∈ (process_changes cfg env cs k).tr := by
  unfold process_changes at h ⊢
  rcases hgo : (process_changes_go cfg env 1 cs.length cs k).out with a | ⟨m1, s1, f1⟩ | e1 | m1
  · rw [bindOut_ret _ _ _ hgo]
    simp [withTr]
  · rw [bindOut_fatal _ _ _ _ _ hgo] at h
    simp at h
  · rw [bindOut_exn _ _ _ hgo] at h
    simp at h
  · rw [bindOut_cpe _ _ _ hgo] at h
    simp at h

theorem countP_bindOut_eq {α β : Type} (p : Cmd → Bool) (r : R α)
    (f : α → Nat → R β) (hf : ∀ a k, ((f a k).tr.countP p) = 0) :
    (bindOut r f).tr.countP p = r.tr.countP p := by
  rcases hout : r.out with a | ⟨m1, s1, f1⟩ | e1 | m1 <;>
    simp [bindOut, hout, List.countP_append, hf]

theorem countP_bindOut_le_add {α β : Type} (p : Cmd → Bool) (r : R α)
    (f : α → Nat → R β) (n m : Nat) (hr : r.tr.countP p ≤ n)
    (hf : ∀ a k, ((f a k).tr.countP p) ≤ m) :
    (bindOut r f).tr.countP p ≤ n + m := by
  rcases hout : r.out with a | ⟨m1, s1, f1⟩ | e1 | m1 <;>
    simp only [bindOut, hout, List.countP_append]
  · exact Nat.add_le_add hr (hf a r.k)
  all_goals exact le_trans hr (Nat.le_add_right n m)

theorem bindOut_git_hash {β : Type} (env : Nat → Res) (k : Nat) (f : String → Nat → R β) :
    bindOut (git_hash_run env k) f = withTr [Cmd.gitHash] (f (envOut (env k)) (k + 1)) := rfl

theorem bindOut_git_changes {β : Type} (env : Nat → Res) (sc : Option String)
    (k : Nat) (f : List String → Nat → R β) :
    bindOut (git_changes_run env sc k) f
      = withTr [Cmd.gitLog (match sc with
          | none => ""
          | some s => "HEAD..." ++ s)]
          (f (git_changes_list (splitlines (envOut (env k)))) (k + 1)) := rfl

theorem withTr_tr {α : Type} (pre : List Cmd) (r : R α) :
    (withTr pre r).tr = pre ++ r.tr := rfl

theorem withTr_out {α : Type} (pre : List Cmd) (r : R α) :
    (withTr pre r).out = r.out := rfl

/-- C4.  The sync marker is read at most once per run and exactly once when
the initial re-anchor succeeds; a marker read reporting absence makes the
run request the log listing over the full history (empty commit range); on a
fatal error the run exits with status 1 and no marker write-back command was
ever issued, so the marker stored in the target is unmodified; when the run
completes it has written the marker (the echo of the freshly read revision
identifier into the marker leaf appears in the trace); and any marker
write-back implies the change-processing loop ran to completion first. -/
theorem sync_marker_lifecycle (cfg : Cfg) (env : Nat → Res) :
    ((main_sync cfg env).tr.countP isMarkerRead ≤ 1)
    ∧ ((vss_cd_root cfg env 0).out = Out.ret () →
        (main_sync cfg env).tr.countP isMarkerRead = 1)
    ∧ ((vss_cd_root cfg env 0).out = Out.ret () →
        (vss_git_hash_get cfg env (vss_cd_root cfg env 0).k).out = Out.ret none →
        Cmd.gitLog "" ∈ (main_sync cfg env).tr)
    ∧ (∀ m sp fn, (main_sync cfg env).out = Out.fatal m sp fn →
        exit_code (main_sync cfg env).out = 1
        ∧ (main_sync cfg env).tr.countP isMarkerWrite = 0)
    ∧ ((main_sync cfg env).out = Out.ret () →
        ∃ h2, Cmd.winEcho h2 gitcommit_file ∈ (main_sync cfg env).tr)
    ∧ ((main_sync cfg env).tr.countP isMarkerWrite ≠ 0 →
        Cmd.printMsg "All changes processed" ∈ (main_sync cfg env).tr) := by
  have hcont : ∀ (sync_commit : Option String) (k2 : Nat),
      (bindOut (git_hash_run env k2) (fun hash k3 =>
        withTr [.printMsg (match sync_commit with
          | none => "Replaying from first git commit until " ++ hash.take 7 ++ " (.gitcommit not found)"
          | some sc => "Replaying from " ++ sc.take 7 ++ " until " ++ hash.take 7)]
        (bindOut (git_changes_run env sync_commit k3) (fun changes k4 =>
        bindOut (process_changes cfg env changes k4) (fun _ k5 =>
        bindOut (vss_cd_root cfg env k5) (fun _ k6 =>
        bindOut (git_hash_run env k6) (fun hash2 k7 =>
        vss_git_hash_set cfg env hash2 k7))))))).tr.countP isMarkerRead = 0 := by
    intro sc k2
    refine countP_bindOut_zero _ _ _ (git_hash_run_marker_free env k2).1 ?_
    intro hash k3
    rw [withTr_tr, List.countP_append]
    refine Nat.add_eq_zero.mpr ⟨by simp [isMarkerRead], ?_⟩
    refine countP_bindOut_zero _ _ _ (git_changes_run_marker_free env sc k3).1 ?_
    intro cs k4
    refine countP_bindOut_zero _ _ _ (process_changes_marker_free cfg env cs k4).1 ?_
    intro a k5
    refine countP_bindOut_zero _ _ _ (vss_cd_root_marker_free cfg env k5).1 ?_
    intro b k6
    refine countP_bindOut_zero _ _ _ (git_hash_run_marker_free env k6).1 ?_
    intro h2 k7
    exact vss_git_hash_set_read_free cfg env h2 k7
  refine ⟨?_, ?_, ?_, ?_, ?_, ?_⟩
  · -- (1) read at most once
    unfold main_sync
    have h1 := countP_bindOut_le_add isMarkerRead (vss_cd_root cfg env 0) _ 0 1
      (le_of_eq (vss_cd_root_marker_free cfg env 0).1)
      (fun _ k1 => by
        rw [countP_bindOut_eq _ _ _ (hcont)]
        exact le_of_eq (vss_git_hash_get_read_one cfg env k1))
    omega
  · -- (2) read exactly once after a successful re-anchor
    intro h0
    unfold main_sync
    rw [bindOut_ret _ _ _ h0, withTr_tr, List.countP_append,
      countP_bindOut_eq _ _ _ (hcont), vss_git_hash_get_read_one cfg env _,
      (vss_cd_root_marker_free cfg env 0).1]
  · -- (3) marker absence requests the full history
    intro h0 hget
    unfold main_sync
    rw [bindOut_ret _ _ _ h0, bindOut_ret _ _ _ hget, bindOut_git_hash,
      bindOut_git_changes]
    simp [withTr]
  · -- (4) fatal: nonzero exit, marker never written
    intro m sp fn hmain
    refine ⟨by rw [hmain]; rfl, ?_⟩
    unfold main_sync at hmain ⊢
    rcases h0 : (vss_cd_root cfg env 0).out with a0 | ⟨m0, s0, f0⟩ | e0 | m0
    · rw [bindOut_ret _ _ _ h0] at hmain ⊢
      rw [withTr_out] at hmain
      rw [withTr_tr, List.countP_append]
      refine Nat.add_eq_zero.mpr ⟨(vss_cd_root_marker_free cfg env 0).2, ?_⟩
      rcases hget : (vss_git_hash_get cfg env (vss_cd_root cfg env 0).k).out with
        aG | ⟨mG, sG, fG⟩ | eG | mG
      · rw [bindOut_ret _ _ _ hget] at hmain ⊢
        rw [withTr_out] at hmain
        rw [withTr_tr, List.countP_append]
        refine Nat.add_eq_zero.mpr ⟨vss_git_hash_get_write_free cfg env _, ?_⟩
        rw [bindOut_git_hash] at hmain ⊢
        rw [withTr_out] at hmain
        rw [withTr_tr, List.countP_append]
        refine Nat.add_eq_zero.mpr ⟨by simp [isMarkerWrite], ?_⟩
        rw [withTr_out] at hmain
        rw [withTr_tr, List.countP_append]
        refine Nat.add_eq_zero.mpr ⟨by simp [isMarkerWrite], ?_⟩
        rw [bindOut_git_changes] at hmain ⊢
        rw [withTr_out] at hmain
        rw [withTr_tr, List.countP_append]
        refine Nat.add_eq_zero.mpr ⟨by simp [isMarkerWrite], ?_⟩
        rcases hproc : (process_changes cfg env
            (git_changes_list (splitlines (envOut (env ((vss_git_hash_get cfg env
              (vss_cd_root cfg env 0).k).k + 1)))))
            ((vss_git_hash_get cfg env (vss_cd_root cfg env 0).k).k + 1 + 1)).out with
          aP | ⟨mP, sP, fP⟩ | eP | mP
        · rw [bindOut_ret _ _ _ hproc] at hmain ⊢
          rw [withTr_out] at hmain
          rw [withTr_tr, List.countP_append]
          refine Nat.add_eq_zero.mpr ⟨(process_changes_marker_free cfg env _ _).2, ?_⟩
          rcases h5 : (vss_cd_root cfg env (process_changes cfg env
              (git_changes_list (splitlines (envOut (env ((vss_git_hash_get cfg env
                (vss_cd_root cfg env 0).k).k + 1)))))
              ((vss_git_hash_get cfg env (vss_cd_root cfg env 0).k).k + 1 + 1)).k).out with
            a5 | ⟨m5, s5, f5⟩ | e5 | m5
          · rw [bindOut_ret _ _ _ h5] at hmain ⊢
            rw [withTr_out] at hmain
            rw [withTr_tr, List.countP_append]
            refine Nat.add_eq_zero.mpr ⟨(vss_cd_root_marker_free cfg env _).2, ?_⟩
            rw [bindOut_git_hash] at hmain ⊢
            rw [withTr_out] at hmain
            rw [withTr_tr, List.countP_append]
            refine Nat.add_eq_zero.mpr ⟨by simp [isMarkerWrite], ?_⟩
            exact absurd hmain (vss_git_hash_set_not_fatal cfg env _ _ m sp fn)
          · rw [bindOut_fatal _ _ _ _ _ h5]
            exact (vss_cd_root_marker_free cfg env _).2
          · rw [bindOut_exn _ _ _ h5]
            exact (vss_cd_root_marker_free cfg env _).2
          · rw [bindOut_cpe _ _ _ h5]
            exact (vss_cd_root_marker_free cfg env _).2
        · rw [bindOut_fatal _ _ _ _ _ hproc]
          exact (process_changes_marker_free cfg env _ _).2
        · rw [bindOut_exn _ _ _ hproc]
          exact (process_changes_marker_free cfg env _ _).2
        · rw [bindOut_cpe _ _ _ hproc]
          exact (process_changes_marker_free cfg env _ _).2
      · rw [bindOut_fatal _ _ _ _ _ hget]
        exact vss_git_hash_get_write_free cfg env _
      · rw [bindOut_exn _ _ _ hget]
        exact vss_git_hash_get_write_free cfg env _
      · rw [bindOut_cpe _ _ _ hget]
        exact vss_git_hash_get_write_free cfg env _
    · rw [bindOut_fatal _ _ _ _ _ h0]
      exact (vss_cd_root_marker_free cfg env 0).2
    · rw [bindOut_exn _ _ _ h0]
      exact (vss_cd_root_marker_free cfg env 0).2
    · rw [bindOut_cpe _ _ _ h0]
      exact (vss_cd_root_marker_free cfg env 0).2
  · -- (5) a completed run has echoed the new revision into the marker leaf
    intro hmain
    unfold main_sync at hmain ⊢
    rcases h0 : (vss_cd_root cfg env 0).out with a0 | ⟨m0, s0, f0⟩ | e0 | m0
    · rw [bindOut_ret _ _ _ h0] at hmain ⊢
      rw [withTr_out] at hmain
      rcases hget : (vss_git_hash_get cfg env (vss_cd_root cfg env 0).k).out with
        aG | ⟨mG, sG, fG⟩ | eG | mG
      · rw [bindOut_ret _ _ _ hget] at hmain ⊢
        rw [withTr_out] at hmain
        rw [bindOut_git_hash] at hmain ⊢
        rw [withTr_out, withTr_out] at hmain
        rw [bindOut_git_changes] at hmain ⊢
        rw [withTr_out] at hmain
        rcases hproc : (process_changes cfg env
            (git_changes_list (splitlines (envOut (env ((vss_git_hash_get cfg env
              (vss_cd_root cfg env 0).k).k + 1)))))
            ((vss_git_hash_get cfg env (vss_cd_root cfg env 0).k).k + 1 + 1)).out with
          aP | ⟨mP, sP, fP⟩ | eP | mP
        · rw [bindOut_ret _ _ _ hproc] at hmain ⊢
          rw [withTr_out] at hmain
          rcases h5 : (vss_cd_root cfg env (process_changes cfg env
              (git_changes_list (splitlines (envOut (env ((vss_git_hash_get cfg env
                (vss_cd_root cfg env 0).k).k + 1)))))
              ((vss_git_hash_get cfg env (vss_cd_root cfg env 0).k).k + 1 + 1)).k).out with
            a5 | ⟨m5, s5, f5⟩ | e5 | m5
          · rw [bindOut_ret _ _ _ h5] at hmain ⊢
            rw [withTr_out] at hmain
            rw [bindOut_git_hash] at hmain ⊢
            rw [withTr_out] at hmain
            refine ⟨envOut (env ((vss_cd_root cfg env (process_changes cfg env
              (git_changes_list (splitlines (envOut (env ((vss_git_hash_get cfg env
                (vss_cd_root cfg env 0).k).k + 1)))))
              ((vss_git_hash_get cfg env (vss_cd_root cfg env 0).k).k + 1 + 1)).k).k)), ?_⟩
            have he := vss_git_hash_set_echo cfg env (envOut (env ((vss_cd_root cfg env
              (process_changes cfg env (git_changes_list (splitlines (envOut (env
                ((vss_git_hash_get cfg env (vss_cd_root cfg env 0).k).k + 1)))))
              ((vss_git_hash_get cfg env (vss_cd_root cfg env 0).k).k + 1 + 1)).k).k)))
              ((vss_cd_root cfg env (process_changes cfg env (git_changes_list (splitlines
                (envOut (env ((vss_git_hash_get cfg env (vss_cd_root cfg env 0).k).k + 1)))))
              ((vss_git_hash_get cfg env (vss_cd_root cfg env 0).k).k + 1 + 1)).k).k + 1)
            simp only [withTr_tr, List.mem_append]
            simp [he]
          · rw [bindOut_fatal _ _ _ _ _ h5] at hmain
            exact absurd hmain (by simp)
          · rw [bindOut_exn _ _ _ h5] at hmain
            exact absurd hmain (by simp)
          · rw [bindOut_cpe _ _ _ h5] at hmain
            exact absurd hmain (by simp)
        · rw [bindOut_fatal _ _ _ _ _ hproc] at hmain
          exact absurd hmain (by simp)
        · rw [bindOut_exn _ _ _ hproc] at hmain
          exact absurd hmain (by simp)
        · rw [bindOut_cpe _ _ _ hproc] at hmain
          exact absurd hmain (by simp)
      · rw [bindOut_fatal _ _ _ _ _ hget] at hmain
        exact absurd hmain (by simp)
      · rw [bindOut_exn _ _ _ hget] at hmain
        exact absurd hmain (by simp)
      · rw [bindOut_cpe _ _ _ hget] at hmain
        exact absurd hmain (by simp)
    · rw [bindOut_fatal _ _ _ _ _ h0] at hmain
      exact absurd hmain (by simp)
    · rw [bindOut_exn _ _ _ h0] at hmain
      exact absurd hmain (by simp)
    · rw [bindOut_cpe _ _ _ h0] at hmain
      exact absurd hmain (by simp)
  · -- (6) any marker write implies the processing loop completed first
    intro hw
    unfold main_sync at hw ⊢
    rcases h0 : (vss_cd_root cfg env 0).out with a0 | ⟨m0, s0, f0⟩ | e0 | m0
    · rw [bindOut_ret _ _ _ h0] at hw ⊢
      rw [withTr_tr] at hw ⊢
      rw [List.countP_append, (vss_cd_root_marker_free cfg env 0).2] at hw
      rcases hget : (vss_git_hash_get cfg env (vss_cd_root cfg env 0).k).out with
        aG | ⟨mG, sG, fG⟩ | eG | mG
      · rw [bindOut_ret _ _ _ hget] at hw ⊢
        rw [withTr_tr] at hw ⊢
        rw [List.countP_append, vss_git_hash_get_write_free cfg env _] at hw
        rw [bindOut_git_hash] at hw ⊢
        rw [withTr_tr, withTr_tr] at hw ⊢
        rw [List.countP_append, List.countP_append] at hw
        rw [bindOut_git_changes] at hw ⊢
        rw [withTr_tr] at hw ⊢
        rw [List.countP_append] at hw
        rcases hproc : (process_changes cfg env
            (git_changes_list (splitlines (envOut (env ((vss_git_hash_get cfg env
              (vss_cd_root cfg env 0).k).k + 1)))))
            ((vss_git_hash_get cfg env (vss_cd_root cfg env 0).k).k + 1 + 1)).out with
          aP | ⟨mP, sP, fP⟩ | eP | mP
        · rw [bindOut_ret _ _ _ hproc] at hw ⊢
          have hmem := process_changes_print cfg env
            (git_changes_list (splitlines (envOut (env ((vss_git_hash_get cfg env
              (vss_cd_root cfg env 0).k).k + 1)))))
            ((vss_git_hash_get cfg env (vss_cd_root cfg env 0).k).k + 1 + 1)
            (by rw [hproc])
          simp only [withTr_tr, List.mem_append]
          simp [hmem]
        · rw [bindOut_fatal _ _ _ _ _ hproc] at hw
          rw [(process_changes_marker_free cfg env _ _).2] at hw
          simp [isMarkerWrite] at hw
        · rw [bindOut_exn _ _ _ hproc] at hw
          rw [(process_changes_marker_free cfg env _ _).2] at hw
          simp [isMarkerWrite] at hw
        · rw [bindOut_cpe _ _ _ hproc] at hw
          rw [(process_changes_marker_free cfg env _ _).2] at hw
          simp [isMarkerWrite] at hw
      · rw [bindOut_fatal _ _ _ _ _ hget] at hw
        rw [vss_git_hash_get_write_free cfg env _] at hw
        simp at hw
      · rw [bindOut_exn _ _ _ hget] at hw
        rw [vss_git_hash_get_write_free cfg env _] at hw
        simp at hw
      · rw [bindOut_cpe _ _ _ hget] at hw
        rw [vss_git_hash_get_write_free cfg env _] at hw
        simp at hw
    · rw [bindOut_fatal _ _ _ _ _ h0] at hw
      exact absurd (vss_cd_root_marker_free cfg env 0).2 hw
    · rw [bindOut_exn _ _ _ h0] at hw
      exact absurd (vss_cd_root_marker_free cfg env 0).2 hw
    · rw [bindOut_cpe _ _ _ h0] at hw
      exact absurd (vss_cd_root_marker_free cfg env 0).2 hw

/-- Witness for C4 at concrete runs: when the initial re-anchor fails with an
unclassified diagnostic the run exits 1 with no marker write; when the
marker is absent the log listing is requested over the full history and the
marker was read exactly once. -/
theorem sync_marker_lifecycle_witness :
    (exit_code (main_sync cfgW envKaboom).out = 1
      ∧ (main_sync cfgW envKaboom).tr.countP isMarkerWrite = 0)
    ∧ Cmd.gitLog "" ∈ (main_sync cfgW envAbsent).tr
    ∧ (main_sync cfgW envAbsent).tr.countP isMarkerRead = 1 :=
  ⟨(sync_marker_lifecycle cfgW envKaboom).2.2.2.1 "kaboom" cfgW.vss_proj "" (by decide),
   (sync_marker_lifecycle cfgW envAbsent).2.2.1 (by decide) (by decide),
   (sync_marker_lifecycle cfgW envAbsent).2.1 (by decide)⟩
